import Mathlib

/-!
Shallow embedding of the BBRv3 congestion controller of picoquic
(src/picoquic/bbr.c) together with theorems checking the repository's
specification claims against it.

Embedding conventions:
- C uint64_t values are modelled as Nat.  At the sites where the C code can
  wrap around 2^64 with values that actually occur (arithmetic involving the
  UINT64_MAX sentinels, products of externally supplied counters), the
  wrapping is made explicit through the helpers u64add, u64sub and u64mul.
  At the remaining sites the C code never relies on wraparound for any value
  the transport can produce, and plain Nat arithmetic is used.
- C double values are modelled as exact rational numbers, represented as
  unnormalised fractions (the type Dbl below) so that all rational
  arithmetic is by primitive integer operations; the cast (uint64_t)x of a
  non-negative double is modelled as the floor.
- Functions that mutate the controller state or the path record are modelled
  as explicit state passing; every definition mirrors the corresponding C
  function of src/picoquic/bbr.c statement by statement.
- Code of the repository that is outside src/ (the picoquic constants, the
  hystart helpers, the test random generator) is modelled from the spec; each
  such definition carries a doc comment starting with "Modelled from the
  spec:".
-/

/-- Modulus of 64-bit unsigned arithmetic (reducible so that the modulus is
always the bare literal during reduction). -/
abbrev U64MOD : Nat := 18446744073709551616

/-- Largest uint64_t value, used by the source as an "unset" sentinel. -/
def UINT64_MAX : Nat := 18446744073709551615

/-- Largest uint32_t value (sentinel for bw_probe_up_cnt). -/
def UINT32_MAX : Nat := 4294967295

/-- Wrapping 64-bit addition. -/
def u64add (a b : Nat) : Nat := (a + b) % U64MOD

/-- Wrapping 64-bit subtraction (faithful for operands below 2^64). -/
def u64sub (a b : Nat) : Nat := (a % U64MOD + (U64MOD - b % U64MOD)) % U64MOD

/-- Wrapping 64-bit multiplication. -/
def u64mul (a b : Nat) : Nat := (a * b) % U64MOD

/-- Exact rational numbers as unnormalised fractions: the value denoted is
num / den.  C doubles are modelled by this type; keeping fractions
unnormalised means every operation is a primitive integer operation, and
every comparison is an exact cross multiplication.  All values built on the
embedded paths have a positive denominator. -/
structure Dbl where
  num : Int
  den : Nat
deriving DecidableEq, Repr

/-- The rational value of a machine integer. -/
def Dbl.ofNat (n : Nat) : Dbl := ⟨n, 1⟩

instance (n : Nat) : OfNat Dbl n := ⟨⟨n, 1⟩⟩

instance : Mul Dbl := ⟨fun a b => ⟨a.num * b.num, a.den * b.den⟩⟩

instance : Add Dbl := ⟨fun a b => ⟨a.num * b.den + b.num * a.den, a.den * b.den⟩⟩

instance : Sub Dbl := ⟨fun a b => ⟨a.num * b.den - b.num * a.den, a.den * b.den⟩⟩

/-- Reciprocal (sign moved to the numerator; the reciprocal of zero is the
junk value with denominator zero, which no embedded path consumes). -/
def Dbl.inv (a : Dbl) : Dbl :=
  if 0 ≤ a.num then ⟨(a.den : Int), a.num.toNat⟩
  else ⟨-(a.den : Int), (-a.num).toNat⟩

instance : Div Dbl := ⟨fun a b => a * b.inv⟩

instance : LT Dbl := ⟨fun a b => a.num * b.den < b.num * a.den⟩

instance : LE Dbl := ⟨fun a b => a.num * b.den ≤ b.num * a.den⟩

instance (a b : Dbl) : Decidable (a < b) :=
  inferInstanceAs (Decidable (a.num * b.den < b.num * a.den))

instance (a b : Dbl) : Decidable (a ≤ b) :=
  inferInstanceAs (Decidable (a.num * b.den ≤ b.num * a.den))

/-- Cast of a non-negative C double to uint64_t, modelled as the floor
(negative values never reach such a cast on the embedded paths). -/
def dblToU64 (q : Dbl) : Nat := (q.num / (q.den : Int)).toNat

/- Constants of BBRv3 as defined at the top of bbr.c. -/

def BBRPacingMarginPercent : Nat := 1
def BBRStartupPacingGain : Dbl := ⟨277, 100⟩
def BBRStartupCwndGain : Dbl := ⟨2, 1⟩
def BBRLossThresh : Dbl := ⟨2, 100⟩
def BBRLossAlpha : Dbl := ⟨125, 1000⟩
def BBRBeta : Dbl := ⟨7, 10⟩
def BBRHeadroom : Dbl := ⟨15, 100⟩
def BBRMinPipeCwnd : Nat := 4
def BBRMaxBwFilterLen : Nat := 2
def BBRExtraAckedFilterLen : Nat := 10
def BBRMinRTTFilterLen : Nat := 10000000
def BBRProbeRTTCwndGain : Dbl := ⟨1, 2⟩
def BBRProbeRTTDuration : Nat := 200000
def BBRProbeRTTInterval : Nat := 5000000
def BBRProbeBwDownPacingGain : Dbl := ⟨9, 10⟩
def BBRProbeBwDownCwndGain : Dbl := ⟨2, 1⟩
def BBRProbeBwCruisePacingGain : Dbl := ⟨1, 1⟩
def BBRProbeBwCruiseCwndGain : Dbl := ⟨2, 1⟩
def BBRProbeBwRefillPacingGain : Dbl := ⟨125, 100⟩
def BBRProbeBwRefillCwndGain : Dbl := ⟨2, 1⟩
def BBRProbeBwUpPacingGain : Dbl := ⟨125, 100⟩
def BBRProbeBwUpCwndGain : Dbl := ⟨2, 1⟩
def BBRMinRttMarginPercent : Nat := 2

/-- Modelled from the spec: the transport constant PICOQUIC_INITIAL_RTT
(§9, typically 250 ms), defined outside src/. -/
def PICOQUIC_INITIAL_RTT : Nat := 250000

/-- Modelled from the spec: the transport constant PICOQUIC_CWIN_INITIAL
(§9, typically 10 MSS of 1536 bytes), defined outside src/. -/
def PICOQUIC_CWIN_INITIAL : Nat := 15360

/-- Modelled from the spec: the transport constant PICOQUIC_TARGET_RENO_RTT
(§9, typically 100 ms), defined outside src/. -/
def PICOQUIC_TARGET_RENO_RTT : Nat := 100000

/-- Modelled from the spec: the transport constant
PICOQUIC_TARGET_SATELLITE_RTT (§9, typically 1 s), defined outside src/. -/
def PICOQUIC_TARGET_SATELLITE_RTT : Nat := 1000000

/- Windowed filters (bbr.c lines 467-498). -/

/-- Windowed max filter update: conditional write into the current slot,
then take the maximum of all slots (update_windowed_max_filter). -/
def update_windowed_max_filter (filter : List Nat) (v : Nat) (cycle : Nat) :
    List Nat × Nat :=
  let f := if filter.getD (cycle % filter.length) 0 < v then
      filter.set (cycle % filter.length) v
    else filter
  (f, f.foldl (fun acc x => if acc < x then x else acc) v)

/-- Zero the filter slot of the new period (start_windowed_max_filter_period). -/
def start_windowed_max_filter_period (filter : List Nat) (cycle : Nat) :
    List Nat :=
  filter.set (cycle % filter.length) 0

/- Phase and ack-phase enumerations (bbr.c lines 212-229). -/

inductive BbrAlgState where
  | startup
  | drain
  | probe_bw_down
  | probe_bw_cruise
  | probe_bw_refill
  | probe_bw_up
  | probe_rtt
  | startup_long_rtt
deriving DecidableEq, Repr

/-- Numeric value of the C enumeration picoquic_bbr_alg_state_t, as exposed
by picoquic_bbr_observe. -/
def algStateVal : BbrAlgState → Nat
  | .startup => 0
  | .drain => 1
  | .probe_bw_down => 2
  | .probe_bw_cruise => 3
  | .probe_bw_refill => 4
  | .probe_bw_up => 5
  | .probe_rtt => 6
  | .startup_long_rtt => 7

inductive BbrAckPhase where
  | probe_starting
  | probe_stopping
  | refilling
  | probe_feedback
deriving DecidableEq, Repr

/-- Modelled from the spec: the state of the external HyStart min/max RTT
filter picoquic_min_max_rtt_t (§4.10, C10); the helper functions operating
on it live outside src/.  bbr.c itself reads the fields is_init,
sample_current and sample_max in BBRExitStartupLongRtt. -/
structure MinMaxRtt where
  is_init : Bool
  sample_current : Nat
  sample_max : Nat
  sample_min : Nat
deriving DecidableEq, Repr

/-- The controller state (picoquic_bbr_state_t), one instance per path. -/
structure BbrState where
  state : BbrAlgState
  round_count : Nat
  rounds_since_probe : Nat
  round_start : Bool
  next_round_delivered : Nat
  pacing_rate : Dbl
  send_quantum : Nat
  prior_cwnd : Nat
  pacing_gain : Dbl
  cwnd_gain : Dbl
  packet_conservation : Bool
  max_bw : Nat
  bw_hi : Nat
  bw_lo : Nat
  bw : Nat
  btl_bw : Nat
  min_rtt : Nat
  bdp : Nat
  extra_acked : Nat
  offload_budget : Nat
  max_inflight : Nat
  inflight_hi : Nat
  inflight_lo : Nat
  bw_latest : Nat
  inflight_latest : Nat
  MaxBwFilter : List Nat
  cycle_count : Nat
  extra_acked_interval_start : Nat
  extra_acked_delivered : Nat
  ExtraACKedFilter : List Nat
  filled_pipe : Bool
  full_bw : Nat
  full_bw_count : Nat
  min_rtt_stamp : Nat
  probe_rtt_min_delay : Nat
  probe_rtt_min_stamp : Nat
  probe_rtt_done_stamp : Nat
  min_rtt_margin : Nat
  probe_rtt_expired : Bool
  probe_rtt_round_done : Bool
  idle_restart : Bool
  path_is_app_limited : Bool
  rounds_since_bw_probe : Nat
  bw_probe_wait : Nat
  cycle_stamp : Nat
  bw_probe_up_cnt : Nat
  bw_probe_up_rounds : Nat
  bw_probe_samples : Nat
  bw_probe_up_acks : Nat
  ack_phase : BbrAckPhase
  loss_in_round : Bool
  loss_round_start : Bool
  loss_round_delivered : Nat
  loss_rate_smoothed : Dbl
  delivered_smoothed : Dbl
  lost_smoothed : Dbl
  random_context : Nat
  rtt_filter : MinMaxRtt
  bdp_seed : Nat
deriving DecidableEq, Repr

/-- The fields of picoquic_path_t (and cnx) that bbr.c reads or writes.
cwin, is_ssthresh_initialized and is_cc_data_updated are written by the
controller; the rest are transport-owned inputs. -/
structure PathState where
  cwin : Nat
  delivered : Nat
  bytes_in_transit : Nat
  send_mtu : Nat
  smoothed_rtt : Nat
  rtt_variant : Nat
  rtt_min : Nat
  rtt_sample : Nat
  bandwidth_estimate : Nat
  peak_bandwidth_estimate : Nat
  pacing_packet_time_microsec : Nat
  last_time_acked_data_frame_sent : Nat
  last_sender_limited_time : Nat
  unique_path_id : Nat
  client_mode : Bool
  is_ssthresh_initialized : Bool
  is_cc_data_updated : Bool
deriving DecidableEq, Repr

/-- The per-ACK data supplied by the transport (picoquic_per_ack_state_t). -/
structure AckState where
  nb_bytes_acknowledged : Nat
  nb_bytes_delivered_since_packet_sent : Nat
  nb_bytes_newly_lost : Nat
  nb_bytes_lost_since_packet_sent : Nat
  inflight_prior : Nat
  rtt_measurement : Nat
  is_app_limited : Bool
  is_cwnd_limited : Bool
deriving DecidableEq, Repr

/-- The rate-sample record built from the ACK state (bbr_per_ack_state_t). -/
structure Rs where
  delivered : Nat
  delivery_rate : Nat
  rtt_sample : Nat
  newly_acked : Nat
  newly_lost : Nat
  tx_in_flight : Nat
  lost : Nat
  is_app_limited : Bool
  is_cwnd_limited : Bool
deriving DecidableEq, Repr

/-- The all-zero controller state produced by memset in BBROnInit. -/
def bbrZero : BbrState where
  state := .startup
  round_count := 0
  rounds_since_probe := 0
  round_start := false
  next_round_delivered := 0
  pacing_rate := 0
  send_quantum := 0
  prior_cwnd := 0
  pacing_gain := 0
  cwnd_gain := 0
  packet_conservation := false
  max_bw := 0
  bw_hi := 0
  bw_lo := 0
  bw := 0
  btl_bw := 0
  min_rtt := 0
  bdp := 0
  extra_acked := 0
  offload_budget := 0
  max_inflight := 0
  inflight_hi := 0
  inflight_lo := 0
  bw_latest := 0
  inflight_latest := 0
  MaxBwFilter := [0, 0]
  cycle_count := 0
  extra_acked_interval_start := 0
  extra_acked_delivered := 0
  ExtraACKedFilter := [0, 0, 0, 0, 0, 0, 0, 0, 0, 0]
  filled_pipe := false
  full_bw := 0
  full_bw_count := 0
  min_rtt_stamp := 0
  probe_rtt_min_delay := 0
  probe_rtt_min_stamp := 0
  probe_rtt_done_stamp := 0
  min_rtt_margin := 0
  probe_rtt_expired := false
  probe_rtt_round_done := false
  idle_restart := false
  path_is_app_limited := false
  rounds_since_bw_probe := 0
  bw_probe_wait := 0
  cycle_stamp := 0
  bw_probe_up_cnt := 0
  bw_probe_up_rounds := 0
  bw_probe_samples := 0
  bw_probe_up_acks := 0
  ack_phase := .probe_starting
  loss_in_round := false
  loss_round_start := false
  loss_round_delivered := 0
  loss_rate_smoothed := 0
  delivered_smoothed := 0
  lost_smoothed := 0
  random_context := 0
  rtt_filter := { is_init := false, sample_current := 0, sample_max := 0, sample_min := 0 }
  bdp_seed := 0

/- External helpers that live outside src/ (modelled from the spec). -/

/-- Modelled from the spec: picoquic_test_random (§4.9, component C9), the
64-bit LCG-style pseudo-random stream used for probe-wait jitter; the
function itself is outside src/.  One LCG step (small multiplier and
increment, as in the classic minimal-standard generators); the new state
doubles as the random value, which keeps the stream deterministic in the
seed. -/
def picoquic_test_random (ctx : Nat) : Nat × Nat :=
  let next := (ctx * 75 + 74) % U64MOD
  (next, next)

/-- Modelled from the spec: picoquic_test_uniform_random (§4.9), the uniform
integer helper of the random source, outside src/.  Returns a value below
rnd_max derived from one step of the stream. -/
def picoquic_test_uniform_random (ctx rnd_max : Nat) : Nat × Nat :=
  let n := picoquic_test_random ctx
  (n.1, if rnd_max = 0 then 0 else n.2 % rnd_max)

/-- Modelled from the spec: picoquic_hystart_test (§4.10, C10), the external
HyStart RTT test, outside src/.  It feeds the sample into the min/max
filter and fires when the sample exceeds the filtered minimum by more than
a quarter (a HyStart-style delay-increase detection); the first sample
initialises the filter and never fires. -/
def picoquic_hystart_test (f : MinMaxRtt) (rtt_sample : Nat)
    (pacing_packet_time current_time : Nat) : MinMaxRtt × Bool :=
  if f.is_init = false then
    ({ is_init := true, sample_current := rtt_sample,
       sample_max := rtt_sample, sample_min := rtt_sample }, false)
  else
    ({ f with sample_current := rtt_sample,
              sample_max := max f.sample_max rtt_sample,
              sample_min := min f.sample_min rtt_sample },
     decide (f.sample_min + f.sample_min / 4 < rtt_sample))

/-- Modelled from the spec: picoquic_hystart_loss_volume_test (§4.10), the
external loss-volume test, outside src/.  Fires when the newly lost volume
is a substantial fraction of the newly acknowledged volume. -/
def picoquic_hystart_loss_volume_test (f : MinMaxRtt)
    (newly_acked newly_lost : Nat) : Bool :=
  0 < newly_lost && newly_acked < 4 * newly_lost

/-- Modelled from the spec: picoquic_hystart_increase (§4.10), the external
HyStart window growth helper, outside src/: grows cwin linearly by the
newly acknowledged volume. -/
def picoquic_hystart_increase (p : PathState) (f : MinMaxRtt)
    (nb_delivered : Nat) : PathState :=
  { p with cwin := p.cwin + nb_delivered }

/- Initialisation (bbr.c lines 511-578). -/

/-- BBRInitRandom: seed the per-connection random context from the current
time, the role and the path id (wrapping uint64 arithmetic). -/
def BBRInitRandom (s : BbrState) (p : PathState) (current_time : Nat) :
    BbrState :=
  let r : Nat := Nat.xor 18364758544493064720 (current_time % U64MOD)
  let r := if p.client_mode then (r + 81985529216486895) % U64MOD else r
  let r := if 0 < p.unique_path_id ∧ p.unique_path_id ≠ UINT64_MAX then
      (r * (p.unique_path_id + 1)) % U64MOD
    else r
  { s with random_context := r }

/-- BBRInitFullPipe. -/
def BBRInitFullPipe (s : BbrState) : BbrState :=
  { s with filled_pipe := false, full_bw := 0, full_bw_count := 0 }

/-- BBRResetCongestionSignals. -/
def BBRResetCongestionSignals (s : BbrState) : BbrState :=
  { s with loss_in_round := false, bw_latest := 0, inflight_latest := 0 }

/-- BBRResetLowerBounds: both lower bounds go to the UINT64_MAX sentinel. -/
def BBRResetLowerBounds (s : BbrState) : BbrState :=
  { s with bw_lo := UINT64_MAX, inflight_lo := UINT64_MAX }

/-- BBRInitRoundCounting. -/
def BBRInitRoundCounting (s : BbrState) : BbrState :=
  { s with next_round_delivered := 0, round_start := false, round_count := 0 }

/-- BBRInitPacingRate: startup gain times the nominal bandwidth of the
initial window over the initial RTT. -/
def BBRInitPacingRate (s : BbrState) (p : PathState) : BbrState :=
  let initial_rtt : Nat :=
    if p.smoothed_rtt ≠ PICOQUIC_INITIAL_RTT ∨ p.rtt_variant ≠ 0 then
      p.smoothed_rtt
    else PICOQUIC_INITIAL_RTT
  let nominal_bandwidth : Dbl :=
    Dbl.ofNat (1000000 * PICOQUIC_CWIN_INITIAL) / Dbl.ofNat initial_rtt
  { s with pacing_rate := BBRStartupPacingGain * nominal_bandwidth }

/-- BBREnterStartup. -/
def BBREnterStartup (s : BbrState) : BbrState :=
  { s with state := .startup, pacing_gain := BBRStartupPacingGain,
           cwnd_gain := BBRStartupCwndGain }

/-- BBROnInit: zero the record, seed the random context, pick the initial
min_rtt, stamp the clocks and run the component initialisers. -/
def BBROnInit (p : PathState) (current_time : Nat) : BbrState :=
  let s := BBRInitRandom bbrZero p current_time
  let s := { s with min_rtt :=
    if p.smoothed_rtt = PICOQUIC_INITIAL_RTT ∧ p.rtt_variant = 0 then
      UINT64_MAX
    else p.smoothed_rtt }
  let s := { s with probe_rtt_min_stamp := current_time,
                    probe_rtt_min_delay := s.min_rtt,
                    min_rtt_stamp := current_time,
                    extra_acked_interval_start := current_time,
                    extra_acked_delivered := 0 }
  let s := BBRResetCongestionSignals s
  let s := BBRResetLowerBounds s
  let s := BBRInitRoundCounting s
  let s := BBRInitFullPipe s
  let s := BBRInitPacingRate s p
  BBREnterStartup s

/-- picoquic_bbr_reset. -/
def picoquic_bbr_reset (p : PathState) (current_time : Nat) : BbrState :=
  BBROnInit p current_time

/-- picoquic_bbr_init: the allocation outcome is an input; on failure the
per-path congestion state stays null (none). -/
def picoquic_bbr_init (alloc_ok : Bool) (p : PathState)
    (current_time : Nat) : Option BbrState :=
  if alloc_ok then some (BBROnInit p current_time) else none

/- Path model functions (bbr.c lines 597-835). -/

/-- BBRModulateCwndForRecovery: subtract newly lost bytes from cwin (not
below one MSS); under packet conservation keep cwin at least
bytes_in_transit plus the newly acked bytes. -/
def BBRModulateCwndForRecovery (s : BbrState) (p : PathState) (rs : Rs) :
    PathState :=
  let p :=
    if 0 < rs.newly_lost then
      if rs.newly_lost + p.send_mtu < p.cwin then
        { p with cwin := p.cwin - rs.newly_lost }
      else { p with cwin := p.send_mtu }
    else p
  if s.packet_conservation ∧ p.cwin < p.bytes_in_transit + rs.newly_acked then
    { p with cwin := p.bytes_in_transit + rs.newly_acked }
  else p

/-- IsInAProbeBWState. -/
def IsInAProbeBWState (s : BbrState) : Bool :=
  decide (s.state = .probe_bw_down ∨ s.state = .probe_bw_cruise ∨
    s.state = .probe_bw_refill ∨ s.state = .probe_bw_up)

/-- BBRInflightWithHeadroom: (1 - BBRHeadroom) of inflight_hi, floored at
BBRMinPipeCwnd MSS; infinite when inflight_hi is unset. -/
def BBRInflightWithHeadroom (s : BbrState) (p : PathState) : Nat :=
  if s.inflight_hi = UINT64_MAX then UINT64_MAX
  else
    let iwh := dblToU64 ((1 - BBRHeadroom) * Dbl.ofNat s.inflight_hi)
    if iwh < BBRMinPipeCwnd * p.send_mtu then BBRMinPipeCwnd * p.send_mtu
    else iwh

/-- BBRBoundCwndForModel: cap cwin by inflight_hi (ProbeBW outside Cruise),
by the headroom value (ProbeRTT or Cruise) and by inflight_lo; the cap
itself is floored at BBRMinPipeCwnd MSS. -/
def BBRBoundCwndForModel (s : BbrState) (p : PathState) : PathState :=
  let cap : Nat :=
    if IsInAProbeBWState s ∧ s.state ≠ .probe_bw_cruise then
      (if 0 < s.inflight_hi then s.inflight_hi else UINT64_MAX)
    else if s.state = .probe_rtt ∨ s.state = .probe_bw_cruise then
      BBRInflightWithHeadroom s p
    else UINT64_MAX
  let cap := if s.inflight_lo < cap then s.inflight_lo else cap
  let cap := if cap < BBRMinPipeCwnd * p.send_mtu then
      BBRMinPipeCwnd * p.send_mtu else cap
  if cap < p.cwin then { p with cwin := cap } else p

/-- BBRBDPMultipleWithBw: refresh bdp from the given bandwidth and the
minimum RTT and return gain times bdp; if there is no valid RTT sample yet,
return the initial window (the source multiplies the initial window constant
by the MTU here). -/
def BBRBDPMultipleWithBw (s : BbrState) (p : PathState) (gain : Dbl)
    (bw : Nat) : BbrState × Nat :=
  if s.min_rtt = UINT64_MAX then
    (s, PICOQUIC_CWIN_INITIAL * p.send_mtu)
  else
    let s := { s with bdp := u64mul bw s.min_rtt / 1000000 }
    (s, dblToU64 (gain * Dbl.ofNat s.bdp))

/-- BBRBDPMultiple. -/
def BBRBDPMultiple (s : BbrState) (p : PathState) (gain : Dbl) :
    BbrState × Nat :=
  BBRBDPMultipleWithBw s p gain s.bw

/-- BBRProbeRTTCwnd: half-gain BDP, floored at BBRMinPipeCwnd MSS. -/
def BBRProbeRTTCwnd (s : BbrState) (p : PathState) : BbrState × Nat :=
  let r := BBRBDPMultiple s p BBRProbeRTTCwndGain
  if r.2 < BBRMinPipeCwnd * p.send_mtu then (r.1, BBRMinPipeCwnd * p.send_mtu)
  else r

/-- BBRBoundCwndForProbeRTT. -/
def BBRBoundCwndForProbeRTT (s : BbrState) (p : PathState) :
    BbrState × PathState :=
  if s.state = .probe_rtt then
    let r := BBRProbeRTTCwnd s p
    if r.2 < p.cwin then (r.1, { p with cwin := r.2 }) else (r.1, p)
  else (s, p)

/-- BBRUpdateOffloadBudget. -/
def BBRUpdateOffloadBudget (s : BbrState) : BbrState :=
  { s with offload_budget := 3 * s.send_quantum }

/-- BBRQuantizationBudget: raise the volume to the offload budget and to
BBRMinPipeCwnd MSS, and add two MSS in ProbeBW_Up. -/
def BBRQuantizationBudget (s : BbrState) (p : PathState) (inflight : Nat) :
    BbrState × Nat :=
  let s := BBRUpdateOffloadBudget s
  let inflight := if inflight < s.offload_budget then s.offload_budget
    else inflight
  let inflight := if inflight < BBRMinPipeCwnd * p.send_mtu then
      BBRMinPipeCwnd * p.send_mtu else inflight
  let inflight := if s.state = .probe_bw_up then inflight + 2 * p.send_mtu
    else inflight
  (s, inflight)

/-- BBRInflightWithBw. -/
def BBRInflightWithBw (s : BbrState) (p : PathState) (gain : Dbl) (bw : Nat) :
    BbrState × Nat :=
  let r := BBRBDPMultipleWithBw s p gain bw
  BBRQuantizationBudget r.1 p r.2

/-- BBRInflight. -/
def BBRInflight (s : BbrState) (p : PathState) (gain : Dbl) : BbrState × Nat :=
  BBRInflightWithBw s p gain s.bw

/-- BBRUpdateMaxInflight: quantization budget of cwnd_gain times bdp plus
the extra-acked estimate. -/
def BBRUpdateMaxInflight (s : BbrState) (p : PathState) : BbrState :=
  let r := BBRBDPMultiple s p s.cwnd_gain
  let q := BBRQuantizationBudget r.1 p (r.2 + r.1.extra_acked)
  { q.1 with max_inflight := q.2 }

/-- BBRSaveCwnd. -/
def BBRSaveCwnd (s : BbrState) (p : PathState) : Nat :=
  if s.state ≠ .probe_rtt then p.cwin
  else if p.cwin < s.prior_cwnd then s.prior_cwnd
  else p.cwin

/-- BBRRestoreCwnd. -/
def BBRRestoreCwnd (s : BbrState) (p : PathState) : Nat :=
  if p.cwin < s.prior_cwnd then s.prior_cwnd else p.cwin

/-- BBRSetCwnd: update max_inflight, modulate for recovery, grow or cap the
window, floor it at BBRMinPipeCwnd MSS, then apply the ProbeRTT cap and the
model caps. -/
def BBRSetCwnd (s : BbrState) (p : PathState) (rs : Rs) :
    BbrState × PathState :=
  let s := BBRUpdateMaxInflight s p
  let p := BBRModulateCwndForRecovery s p rs
  let p :=
    if s.packet_conservation = false then
      let p :=
        if s.filled_pipe then
          let c := p.cwin + rs.newly_acked
          { p with cwin := if s.max_inflight < c then s.max_inflight else c }
        else if p.cwin < s.max_inflight ∨ p.delivered < PICOQUIC_CWIN_INITIAL then
          { p with cwin := p.cwin + rs.newly_acked }
        else p
      if p.cwin < BBRMinPipeCwnd * p.send_mtu then
        { p with cwin := BBRMinPipeCwnd * p.send_mtu }
      else p
    else p
  let r := BBRBoundCwndForProbeRTT s p
  (r.1, BBRBoundCwndForModel r.1 r.2)

/-- BBROnEnterFastRecovery (defined in the source but never invoked by the
notification dispatcher; the only writer of packet_conservation). -/
def BBROnEnterFastRecovery (s : BbrState) (p : PathState) (rs : Rs) :
    BbrState × PathState :=
  let s := { s with prior_cwnd := BBRSaveCwnd s p }
  let additional_cwnd := if p.send_mtu < rs.newly_acked then rs.newly_acked
    else p.send_mtu
  ({ s with packet_conservation := true },
   { p with cwin := p.bytes_in_transit + additional_cwnd })

/-- BBROnEnterRTO (defined in the source but never invoked by the
notification dispatcher). -/
def BBROnEnterRTO (s : BbrState) (p : PathState) : BbrState × PathState :=
  ({ s with prior_cwnd := BBRSaveCwnd s p },
   { p with cwin := p.bytes_in_transit + p.send_mtu })

/-- BBRSetPacingRateWithGain: gain times 99 percent of bw; written only when
the pipe is filled or the new rate is larger. -/
def BBRSetPacingRateWithGain (s : BbrState) (pacing_gain : Dbl) : BbrState :=
  let rate : Dbl :=
    pacing_gain * Dbl.ofNat (u64mul s.bw (100 - BBRPacingMarginPercent)) / 100
  if s.filled_pipe ∨ s.pacing_rate < rate then { s with pacing_rate := rate }
  else s

/-- BBRSetPacingRate. -/
def BBRSetPacingRate (s : BbrState) : BbrState :=
  BBRSetPacingRateWithGain s s.pacing_gain

/-- BBRSetSendQuantum: a millisecond of pacing, capped at 64 KB and floored
at one MSS (below 150 kB/s) or two MSS. -/
def BBRSetSendQuantum (s : BbrState) (p : PathState) : BbrState :=
  let quantum_floor : Nat :=
    if s.pacing_rate < (150000 : Dbl) then p.send_mtu else 2 * p.send_mtu
  let q := dblToU64 (s.pacing_rate / 1000)
  let q := if 65536 < q then 65536 else q
  let q := if q < quantum_floor then quantum_floor else q
  { s with send_quantum := q }

/- Path model functions when not probing for bandwidth (bbr.c 840-950). -/

/-- BBRUpdateLatestDeliverySignals: per-round maxima of the delivery rate
and delivered volume, and detection of the start of a loss round. -/
def BBRUpdateLatestDeliverySignals (s : BbrState) (p : PathState) (rs : Rs) :
    BbrState :=
  let s := { s with loss_round_start := false }
  let s := if s.bw_latest < rs.delivery_rate then
      { s with bw_latest := rs.delivery_rate } else s
  let s := if s.inflight_latest < rs.delivered then
      { s with inflight_latest := rs.delivered } else s
  let prior_delivered := u64sub p.delivered rs.delivered
  if s.loss_round_delivered ≤ prior_delivered then
    { s with loss_round_delivered := p.delivered, loss_round_start := true }
  else s

/-- BBRAdvanceLatestDeliverySignals. -/
def BBRAdvanceLatestDeliverySignals (s : BbrState) (rs : Rs) : BbrState :=
  if s.loss_round_start then
    { s with bw_latest := rs.delivery_rate, inflight_latest := rs.delivered }
  else s

/-- BBRInitLowerBounds: seed unset lower bounds from max_bw and cwin. -/
def BBRInitLowerBounds (s : BbrState) (p : PathState) : BbrState :=
  let s := if s.bw_lo = UINT64_MAX then { s with bw_lo := s.max_bw } else s
  if s.inflight_lo = UINT64_MAX then { s with inflight_lo := p.cwin } else s

/-- BBRLossLowerBounds: multiplicative decrease by BBRBeta, floored by the
latest per-round signals. -/
def BBRLossLowerBounds (s : BbrState) : BbrState :=
  let s := { s with bw_lo := dblToU64 (BBRBeta * Dbl.ofNat s.bw_lo) }
  let s := if s.bw_lo < s.bw_latest then { s with bw_lo := s.bw_latest } else s
  let s := { s with inflight_lo := dblToU64 (BBRBeta * Dbl.ofNat s.inflight_lo) }
  if s.inflight_lo < s.inflight_latest then
    { s with inflight_lo := s.inflight_latest }
  else s

/-- BBRAdaptLowerBoundsFromCongestion: outside ProbeBW, react once per round
to loss by adapting the lower bounds. -/
def BBRAdaptLowerBoundsFromCongestion (s : BbrState) (p : PathState) :
    BbrState :=
  if IsInAProbeBWState s then s
  else if s.loss_in_round then BBRLossLowerBounds (BBRInitLowerBounds s p)
  else s

/- BBR round counting functions (bbr.c 1044-1072). -/

/-- BBRStartRound: anchor the end of the round at delivered plus
bytes_in_transit (uint64 addition). -/
def BBRStartRound (s : BbrState) (p : PathState) : BbrState :=
  { s with next_round_delivered := u64add p.delivered p.bytes_in_transit }

/-- BBRUpdateRound: on the ACK that reaches the round anchor, start a new
round, bump the round counters and reset the extra-acked filter slot of the
new round; otherwise clear round_start. -/
def BBRUpdateRound (s : BbrState) (p : PathState) : BbrState :=
  if s.next_round_delivered ≤ p.delivered then
    let s := BBRStartRound s p
    let s := { s with round_count := s.round_count + 1,
                      rounds_since_probe := s.rounds_since_probe + 1,
                      round_start := true }
    { s with ExtraACKedFilter :=
        start_windowed_max_filter_period s.ExtraACKedFilter s.round_count }
  else { s with round_start := false }

/-- BBRUpdateMaxBw: run the round counter, then feed the delivery-rate
sample into the max filter unless it is an app-limited sample below the
current maximum. -/
def BBRUpdateMaxBw (s : BbrState) (p : PathState) (rs : Rs) : BbrState :=
  let s := BBRUpdateRound s p
  if s.max_bw ≤ rs.delivery_rate ∨ rs.is_app_limited = false then
    let fr := update_windowed_max_filter s.MaxBwFilter rs.delivery_rate
      s.cycle_count
    { s with MaxBwFilter := fr.1, max_bw := fr.2 }
  else s

/-- BBRUpdateCongestionSignals. -/
def BBRUpdateCongestionSignals (s : BbrState) (p : PathState) (rs : Rs) :
    BbrState :=
  let s := BBRUpdateMaxBw s p rs
  let s := if 0 < rs.newly_lost then { s with loss_in_round := true } else s
  if s.loss_round_start = false then s
  else
    let s := BBRAdaptLowerBoundsFromCongestion s p
    { s with loss_in_round := false }

/-- BBRBoundBWForModel: bw is max_bw capped by bw_lo and, when bw_hi is not
zero, by bw_hi (the source keeps 0, the initial value, as the unset test
for bw_hi here). -/
def BBRBoundBWForModel (s : BbrState) : BbrState :=
  let bw := s.max_bw
  let bw := if s.bw_lo < bw then s.bw_lo else bw
  let bw := if s.bw_hi < bw ∧ s.bw_hi ≠ 0 then s.bw_hi else bw
  { s with bw := bw }

/-- BBRAdvanceMaxBwFilter: rotate the max-bw filter to a new period. -/
def BBRAdvanceMaxBwFilter (s : BbrState) : BbrState :=
  let s := { s with cycle_count := s.cycle_count + 1 }
  { s with MaxBwFilter :=
      start_windowed_max_filter_period s.MaxBwFilter s.cycle_count }

/-- BBRUpdateACKAggregation: track delivered volume in excess of the
expected bw times interval; feed the excess (capped at cwin) into the
extra-acked max filter indexed by the round count. -/
def BBRUpdateACKAggregation (s : BbrState) (p : PathState) (rs : Rs)
    (current_time : Nat) : BbrState :=
  let interval := u64sub current_time s.extra_acked_interval_start
  let expected_delivered := u64mul s.bw interval
  let se : BbrState × Nat :=
    if s.extra_acked_delivered ≤ expected_delivered then
      ({ s with extra_acked_delivered := 0,
                extra_acked_interval_start := current_time }, 0)
    else (s, expected_delivered)
  let sAcc := u64add se.1.extra_acked_delivered rs.newly_acked
  let s := { se.1 with extra_acked_delivered := sAcc }
  let extra := u64sub s.extra_acked_delivered se.2
  let extra := if p.cwin < extra then p.cwin else extra
  let fr := update_windowed_max_filter s.ExtraACKedFilter extra s.round_count
  { s with ExtraACKedFilter := fr.1, extra_acked := fr.2 }

/-- IsInflightTooHigh: the lost volume of the sample exceeds BBRLossThresh
times the volume in flight when the acked packet was sent. -/
def IsInflightTooHigh (p : PathState) (rs : Rs) : Bool :=
  decide (dblToU64 (Dbl.ofNat rs.tx_in_flight * BBRLossThresh) < rs.lost)

/-- BBRTargetInflight: the estimated BDP, unless congestion cut cwnd. -/
def BBRTargetInflight (s : BbrState) (p : PathState) : Nat :=
  if s.bdp < p.cwin then s.bdp else p.cwin

/-- BBRRandomIntBetween. -/
def BBRRandomIntBetween (s : BbrState) (low high : Nat) : BbrState × Nat :=
  let r := picoquic_test_uniform_random s.random_context (high - low + 1)
  ({ s with random_context := r.1 }, low + r.2)

/-- BBRPickProbeWait: random 0-or-1 round bound, and a random 2-3 second
wall clock bound. -/
def BBRPickProbeWait (s : BbrState) : BbrState :=
  let r1 := BBRRandomIntBetween s 0 1
  let s := { r1.1 with rounds_since_bw_probe := r1.2 }
  let r2 := BBRRandomIntBetween s 0 1000000
  { r2.1 with bw_probe_wait := 2000000 + r2.2 }

/-- BBRStartProbeBW_DOWN. -/
def BBRStartProbeBW_DOWN (s : BbrState) (p : PathState)
    (current_time : Nat) : BbrState :=
  let s := { s with pacing_gain := BBRProbeBwDownPacingGain,
                    cwnd_gain := BBRProbeBwDownCwndGain }
  let s := BBRResetCongestionSignals s
  let s := { s with bw_probe_up_cnt := UINT32_MAX }
  let s := BBRPickProbeWait s
  let s := { s with cycle_stamp := current_time,
                    ack_phase := .probe_stopping }
  let s := BBRStartRound s p
  { s with state := .probe_bw_down }

/-- BBRStartProbeBW_CRUISE. -/
def BBRStartProbeBW_CRUISE (s : BbrState) : BbrState :=
  { s with pacing_gain := BBRProbeBwCruisePacingGain,
           cwnd_gain := BBRProbeBwCruiseCwndGain,
           state := .probe_bw_cruise }

/-- BBRStartProbeBW_REFILL. -/
def BBRStartProbeBW_REFILL (s : BbrState) (p : PathState) : BbrState :=
  let s := { s with pacing_gain := BBRProbeBwRefillPacingGain,
                    cwnd_gain := BBRProbeBwRefillCwndGain }
  let s := BBRResetLowerBounds s
  let s := { s with bw_probe_up_rounds := 0, bw_probe_up_acks := 0,
                    ack_phase := .refilling }
  let s := BBRStartRound s p
  { s with state := .probe_bw_refill }

/-- BBRRaiseInflightHiSlope: one MSS shifted by the number of Up rounds sets
the per-cwnd growth count (the uint32 cast of the quotient is explicit). -/
def BBRRaiseInflightHiSlope (s : BbrState) (p : PathState) : BbrState :=
  let growth_this_round := u64mul p.send_mtu (2 ^ s.bw_probe_up_rounds)
  let s := { s with bw_probe_up_rounds :=
      if s.bw_probe_up_rounds + 1 < 30 then s.bw_probe_up_rounds + 1 else 30 }
  let up_cnt := (p.cwin / growth_this_round) % 4294967296
  { s with bw_probe_up_cnt := if 1 < up_cnt then up_cnt else 1 }

/-- BBRProbeInflightHiUpward: grow inflight_hi while fully using it. -/
def BBRProbeInflightHiUpward (s : BbrState) (p : PathState) (rs : Rs) :
    BbrState :=
  if rs.is_cwnd_limited = false ∨ p.cwin < s.inflight_hi then s
  else
    let s := { s with bw_probe_up_acks := u64add s.bw_probe_up_acks rs.newly_acked }
    let s :=
      if s.bw_probe_up_cnt ≤ s.bw_probe_up_acks then
        let delta := s.bw_probe_up_acks / s.bw_probe_up_cnt
        { s with bw_probe_up_acks := s.bw_probe_up_acks - delta * s.bw_probe_up_cnt,
                 inflight_hi := u64add s.inflight_hi delta }
      else s
    if s.round_start then BBRRaiseInflightHiSlope s p else s

/-- BBRStartProbeBW_UP. -/
def BBRStartProbeBW_UP (s : BbrState) (p : PathState) (current_time : Nat) :
    BbrState :=
  let s := { s with pacing_gain := BBRProbeBwUpPacingGain,
                    cwnd_gain := BBRProbeBwUpCwndGain,
                    ack_phase := .probe_starting }
  let s := BBRStartRound s p
  let s := { s with cycle_stamp := current_time, state := .probe_bw_up }
  BBRRaiseInflightHiSlope s p

/-- BBRHandleInflightTooHigh: clear bw_probe_samples; when the sample is not
app limited, set inflight_hi to the larger of the sample's tx_in_flight and
BBRBeta times the target inflight; leave ProbeBW_Up for ProbeBW_Down. -/
def BBRHandleInflightTooHigh (s : BbrState) (p : PathState) (rs : Rs)
    (current_time : Nat) : BbrState :=
  let s := { s with bw_probe_samples := 0 }
  let s :=
    if rs.is_app_limited = false then
      let beta_target := dblToU64 (Dbl.ofNat (BBRTargetInflight s p) * BBRBeta)
      { s with inflight_hi :=
          if beta_target < rs.tx_in_flight then rs.tx_in_flight
          else beta_target }
    else s
  if s.state = .probe_bw_up then BBRStartProbeBW_DOWN s p current_time else s

/-- CheckInflightTooHigh. -/
def CheckInflightTooHigh (s : BbrState) (p : PathState) (rs : Rs)
    (current_time : Nat) : BbrState × Bool :=
  if IsInflightTooHigh p rs then
    (if 0 < s.bw_probe_samples then BBRHandleInflightTooHigh s p rs current_time
     else s, true)
  else (s, false)

/- ProbeRTT processes (bbr.c 1128-1250). -/

/-- BBRAdaptMinRttMargin: two percent of min_rtt plus the transmission time
of two packets at max_bw (wrapping uint64 arithmetic as in the source). -/
def BBRAdaptMinRttMargin (s : BbrState) (p : PathState) : BbrState :=
  let margin := u64mul (u64mul s.min_rtt BBRMinRttMarginPercent) 100 / 1000000
  let margin :=
    if 0 < s.max_bw then
      u64add margin (u64mul (u64mul 2 p.send_mtu) 1000000 / s.max_bw)
    else margin
  { s with min_rtt_margin := margin }

/-- BBRUpdateMinRTT: refresh the probe-rtt minimum and expiry flags, delay
the probe when the sample stays within the margin of min_rtt, and adopt the
probe minimum as min_rtt when lower or expired.  The source's test
rtt_sample >= 0 always holds for the unsigned sample; the addition of
min_rtt and its margin wraps in uint64 arithmetic. -/
def BBRUpdateMinRTT (s : BbrState) (p : PathState) (rs : Rs)
    (current_time : Nat) : BbrState :=
  let s := BBRAdaptMinRttMargin s p
  let expired := decide (s.probe_rtt_min_stamp + BBRProbeRTTInterval < current_time)
  let s := { s with probe_rtt_expired := expired }
  let s :=
    if rs.rtt_sample < s.probe_rtt_min_delay ∨ s.probe_rtt_expired then
      { s with probe_rtt_min_delay := rs.rtt_sample,
               probe_rtt_min_stamp := current_time }
    else if rs.rtt_sample < u64add s.min_rtt s.min_rtt_margin then
      { s with probe_rtt_min_stamp := current_time,
               min_rtt_stamp := current_time }
    else s
  let min_rtt_expired :=
    decide (s.min_rtt_stamp + BBRMinRTTFilterLen < current_time)
  if s.probe_rtt_min_delay < s.min_rtt ∨ min_rtt_expired = true then
    { s with min_rtt := s.probe_rtt_min_delay,
             min_rtt_stamp := s.probe_rtt_min_stamp }
  else s

/-- BBRExitProbeRTT. -/
def BBRExitProbeRTT (s : BbrState) (p : PathState) (current_time : Nat) :
    BbrState :=
  let s := BBRResetLowerBounds s
  if s.filled_pipe then
    BBRStartProbeBW_CRUISE (BBRStartProbeBW_DOWN s p current_time)
  else BBREnterStartup s

/-- BBRCheckProbeRTTDone: when the done stamp has passed, schedule the next
probe, restore the window and exit ProbeRTT. -/
def BBRCheckProbeRTTDone (s : BbrState) (p : PathState)
    (current_time : Nat) : BbrState × PathState :=
  if s.probe_rtt_done_stamp ≠ 0 ∧ s.probe_rtt_done_stamp < current_time then
    let s := { s with probe_rtt_min_stamp := current_time }
    let p := { p with cwin := BBRRestoreCwnd s p }
    (BBRExitProbeRTT s p current_time, p)
  else (s, p)

/-- BBREnterProbeRTT. -/
def BBREnterProbeRTT (s : BbrState) : BbrState :=
  { s with state := .probe_rtt, pacing_gain := 1,
           cwnd_gain := BBRProbeRTTCwndGain }

/-- BBRHandleProbeRTT: once in-flight data dropped to the ProbeRTT window,
arm the done stamp and a round; after a full round past the stamp, leave. -/
def BBRHandleProbeRTT (s : BbrState) (p : PathState) (rs : Rs)
    (current_time : Nat) : BbrState × PathState :=
  if s.probe_rtt_done_stamp = 0 then
    let r := BBRProbeRTTCwnd s p
    if rs.tx_in_flight ≤ r.2 then
      let s := { r.1 with
        probe_rtt_done_stamp := current_time + BBRProbeRTTDuration,
        probe_rtt_round_done := false }
      (BBRStartRound s p, p)
    else (r.1, p)
  else
    let s := if s.round_start then { s with probe_rtt_round_done := true }
      else s
    if s.probe_rtt_round_done then BBRCheckProbeRTTDone s p current_time
    else (s, p)

/-- BBRCheckProbeRTT: enter ProbeRTT when the probe interval expired, run
the ProbeRTT handler while in it, and clear idle_restart on delivery. -/
def BBRCheckProbeRTT (s : BbrState) (p : PathState) (rs : Rs)
    (current_time : Nat) : BbrState × PathState :=
  let s :=
    if s.state ≠ .probe_rtt ∧ s.probe_rtt_expired ∧ s.idle_restart = false then
      let s := BBREnterProbeRTT s
      let s := { s with prior_cwnd := BBRSaveCwnd s p,
                        probe_rtt_done_stamp := 0,
                        ack_phase := .probe_stopping }
      BBRStartRound s p
    else s
  let sp := if s.state = .probe_rtt then BBRHandleProbeRTT s p rs current_time
    else (s, p)
  (if 0 < rs.delivered then { sp.1 with idle_restart := false } else sp.1,
   sp.2)

/- ProbeBW state machine (bbr.c 1259-1513). -/

/-- BBRAdaptUpperBounds: advance the ack phase at round boundaries, react to
a too-high-inflight sample, and otherwise raise inflight_hi and bw_hi. -/
def BBRAdaptUpperBounds (s : BbrState) (p : PathState) (rs : Rs)
    (current_time : Nat) : BbrState :=
  let s := if s.ack_phase = .probe_starting ∧ s.round_start then
      { s with ack_phase := .probe_feedback } else s
  let s :=
    if s.ack_phase = .probe_stopping ∧ s.round_start then
      (if IsInAProbeBWState s ∧ rs.is_app_limited = false then
        BBRAdvanceMaxBwFilter s
      else s)
    else s
  let r := CheckInflightTooHigh s p rs current_time
  if r.2 then r.1
  else
    let s := r.1
    if s.inflight_hi = UINT64_MAX ∨ s.bw_hi = UINT64_MAX then s
    else
      let s := if s.inflight_hi < rs.tx_in_flight then
          { s with inflight_hi := rs.tx_in_flight } else s
      let s := if s.bw_hi < rs.delivery_rate then
          { s with bw_hi := rs.delivery_rate } else s
      if s.state = .probe_bw_up then BBRProbeInflightHiUpward s p rs else s

/-- BBRCheckTimeToCruise. -/
def BBRCheckTimeToCruise (s : BbrState) (p : PathState) : BbrState × Bool :=
  if BBRInflightWithHeadroom s p < p.bytes_in_transit then (s, false)
  else
    let r := BBRInflightWithBw s p 1 s.max_bw
    if p.bytes_in_transit ≤ r.2 then (r.1, true) else (r.1, false)

/-- BBRIsRenoCoexistenceProbeTime. -/
def BBRIsRenoCoexistenceProbeTime (s : BbrState) (p : PathState) : Bool :=
  let reno_rounds := BBRTargetInflight s p
  let rounds := if reno_rounds < 63 then reno_rounds else 63
  decide (rounds ≤ s.rounds_since_bw_probe)

/-- BBRHasElapsedInPhase (uint64 addition of the stamp and interval). -/
def BBRHasElapsedInPhase (s : BbrState) (interval current_time : Nat) :
    Bool :=
  decide (u64add s.cycle_stamp interval < current_time)

/-- BBRCheckTimeToProbeBW. -/
def BBRCheckTimeToProbeBW (s : BbrState) (p : PathState)
    (current_time : Nat) : BbrState × Bool :=
  if BBRHasElapsedInPhase s s.bw_probe_wait current_time ∨
      BBRIsRenoCoexistenceProbeTime s p then
    (BBRStartProbeBW_REFILL s p, true)
  else (s, false)

/-- BBRUpdateProbeBWCyclePhase: the core ProbeBW state machine, run only
once the pipe is filled. -/
def BBRUpdateProbeBWCyclePhase (s : BbrState) (p : PathState) (rs : Rs)
    (current_time : Nat) : BbrState :=
  if s.filled_pipe = false then s
  else
    let s := BBRAdaptUpperBounds s p rs current_time
    match s.state with
    | .probe_bw_down =>
      let r := BBRCheckTimeToProbeBW s p current_time
      if r.2 then r.1
      else
        let rc := BBRCheckTimeToCruise r.1 p
        if rc.2 then BBRStartProbeBW_CRUISE rc.1 else rc.1
    | .probe_bw_cruise => (BBRCheckTimeToProbeBW s p current_time).1
    | .probe_bw_refill =>
      if s.round_start then
        BBRStartProbeBW_UP { s with bw_probe_samples := 1 } p current_time
      else s
    | .probe_bw_up =>
      if BBRHasElapsedInPhase s s.min_rtt current_time then
        let r := BBRInflightWithBw s p (⟨125, 100⟩ : Dbl) s.max_bw
        if r.2 < p.bytes_in_transit then BBRStartProbeBW_DOWN r.1 p current_time
        else r.1
      else s
    | _ => s

/-- BBREnterProbeBW. -/
def BBREnterProbeBW (s : BbrState) (p : PathState) (current_time : Nat) :
    BbrState :=
  BBRStartProbeBW_DOWN s p current_time

/- Drain (bbr.c 1517-1531). -/

/-- BBREnterDrain: notify the transport that startup is complete, pace
slowly while maintaining the window. -/
def BBREnterDrain (s : BbrState) (p : PathState) (current_time : Nat) :
    BbrState × PathState :=
  ({ s with state := .drain,
            pacing_gain := 1 / BBRStartupCwndGain,
            cwnd_gain := BBRStartupCwndGain,
            cycle_count := s.cycle_count + 1 },
   { p with is_ssthresh_initialized := true })

/-- BBRCheckDrain: leave Drain for ProbeBW once in-flight data fits the
estimated BDP. -/
def BBRCheckDrain (s : BbrState) (p : PathState) (current_time : Nat) :
    BbrState :=
  if s.state = .drain then
    let r := BBRInflight s p 1
    if p.bytes_in_transit ≤ r.2 then BBREnterProbeBW r.1 p current_time
    else r.1
  else s

/- Startup (bbr.c 1535-1620). -/

/-- BBRCheckStartupHighLoss. -/
def BBRCheckStartupHighLoss (s : BbrState) (p : PathState) (rs : Rs) :
    BbrState :=
  if IsInflightTooHigh p rs then { s with filled_pipe := true } else s

/-- BBRCheckStartupHighRTT: exit startup when a cwnd-limited sample's RTT
exceeds min_rtt by a quarter plus twice the RTT variance. -/
def BBRCheckStartupHighRTT (s : BbrState) (p : PathState) (rs : Rs) :
    BbrState :=
  if s.filled_pipe = false ∧ 0 < s.min_rtt ∧ rs.is_cwnd_limited then
    let delay_cap := s.min_rtt / 4 + 2 * p.rtt_variant
    if s.min_rtt + delay_cap < rs.rtt_sample then
      { s with filled_pipe := true }
    else s
  else s

/-- BBRCheckStartupFullBandwidth: the 5/4 growth test over non-app-limited
rounds; three flat rounds declare the pipe filled. -/
def BBRCheckStartupFullBandwidth (s : BbrState) (rs : Rs) : BbrState :=
  if s.filled_pipe ∨ s.round_start = false ∨ rs.is_app_limited then s
  else if u64mul 5 s.full_bw ≤ u64mul 4 s.max_bw then
    { s with full_bw := s.max_bw, full_bw_count := 0 }
  else
    let s := { s with full_bw_count := s.full_bw_count + 1 }
    if 3 ≤ s.full_bw_count then { s with filled_pipe := true } else s

/-- BBRCheckStartupDone: run the three exit checks; on exit from Startup
seed inflight_hi from bdp when still zero and enter Drain. -/
def BBRCheckStartupDone (s : BbrState) (p : PathState) (rs : Rs)
    (current_time : Nat) : BbrState × PathState :=
  let s := BBRCheckStartupFullBandwidth s rs
  let s := BBRCheckStartupHighLoss s p rs
  let s := BBRCheckStartupHighRTT s p rs
  if s.state = .startup ∧ s.filled_pipe then
    let s := if s.inflight_hi = 0 then { s with inflight_hi := s.bdp } else s
    BBREnterDrain s p current_time
  else (s, p)

/- Startup long RTT (bbr.c 1625-1716). -/

/-- BBREnterStartupLongRTT: switch to the HyStart-driven mode; scale the
initial window by rtt_min over the Reno target (capped at the satellite
ratio), floor it by the seeded BDP, and only ever raise cwin. -/
def BBREnterStartupLongRTT (s : BbrState) (p : PathState) :
    BbrState × PathState :=
  let s := { s with state := .startup_long_rtt }
  let cwnd : Nat := PICOQUIC_CWIN_INITIAL
  let cwnd :=
    if PICOQUIC_TARGET_RENO_RTT < p.rtt_min then
      if PICOQUIC_TARGET_SATELLITE_RTT < p.rtt_min then
        dblToU64 (Dbl.ofNat cwnd * Dbl.ofNat PICOQUIC_TARGET_SATELLITE_RTT /
          Dbl.ofNat PICOQUIC_TARGET_RENO_RTT)
      else
        dblToU64 (Dbl.ofNat cwnd * Dbl.ofNat p.rtt_min /
          Dbl.ofNat PICOQUIC_TARGET_RENO_RTT)
    else cwnd
  let cwnd := if cwnd < s.bdp_seed then s.bdp_seed else cwnd
  (s, if p.cwin < cwnd then { p with cwin := cwnd } else p)

/-- BBRExitStartupLongRtt: force a round start, set filled_pipe, correct a
pathological min_rtt from the HyStart filter, enter Drain and immediately
run the Drain exit check. -/
def BBRExitStartupLongRtt (s : BbrState) (p : PathState)
    (current_time : Nat) : BbrState × PathState :=
  let s := BBRStartRound s p
  let s := { s with round_count := s.round_count + 1,
                    rounds_since_probe := s.rounds_since_probe + 1,
                    round_start := true, filled_pipe := true }
  let s :=
    if (s.rtt_filter.is_init ∨ 0 < s.rtt_filter.sample_current) ∧
        30000000 < s.min_rtt ∧ s.rtt_filter.sample_max < s.min_rtt then
      { s with min_rtt := s.rtt_filter.sample_max,
               min_rtt_stamp := current_time }
    else s
  let sp := BBREnterDrain s p current_time
  (BBRCheckDrain sp.1 sp.2 current_time, sp.2)

/-- The body of BBRCheckStartupLongRtt after its entry checks: run the
HyStart RTT and loss-volume tests, leaving the long-RTT mode on either. -/
def BBRCheckStartupLongRttTests (s : BbrState) (p : PathState) (rs : Rs)
    (current_time : Nat) : BbrState × PathState :=
  let ht := picoquic_hystart_test s.rtt_filter rs.rtt_sample
    p.pacing_packet_time_microsec current_time
  let s := { s with rtt_filter := ht.1 }
  if ht.2 then BBRExitStartupLongRtt s p current_time
  else if picoquic_hystart_loss_volume_test s.rtt_filter rs.newly_acked
      rs.newly_lost then
    BBRExitStartupLongRtt s p current_time
  else (s, p)

/-- BBRCheckStartupLongRtt: enter the long-RTT mode on a high-rtt_min path,
then run the HyStart RTT and loss-volume tests, leaving on either. -/
def BBRCheckStartupLongRtt (s : BbrState) (p : PathState) (rs : Rs)
    (current_time : Nat) : BbrState × PathState :=
  if s.state = .startup ∧ PICOQUIC_TARGET_RENO_RTT < p.rtt_min then
    let sp := BBREnterStartupLongRTT s p
    BBRCheckStartupLongRttTests sp.1 sp.2 rs current_time
  else if s.state ≠ .startup_long_rtt then (s, p)
  else BBRCheckStartupLongRttTests s p rs current_time

/-- BBRUpdateStartupLongRtt: HyStart-style window growth when not sender
limited, then floor cwin at half of the larger of the peak
bandwidth-delay product and the seeded BDP (the source halves the max;
the multiplication wraps in uint64). -/
def BBRUpdateStartupLongRtt (s : BbrState) (p : PathState) (rs : Rs)
    (current_time : Nat) : BbrState × PathState :=
  let p :=
    if p.last_sender_limited_time < p.last_time_acked_data_frame_sent then
      picoquic_hystart_increase p s.rtt_filter rs.newly_acked
    else p
  let max_win := u64mul p.peak_bandwidth_estimate s.min_rtt / 1000000
  let max_win := if max_win < s.bdp_seed then s.bdp_seed else max_win
  let min_win := max_win / 2
  (s, if p.cwin < min_win then { p with cwin := min_win } else p)

/-- BBRSetBdpSeed. -/
def BBRSetBdpSeed (s : BbrState) (bdp_seed : Nat) : BbrState :=
  { s with bdp_seed := bdp_seed }

/- Per-loss steps (bbr.c 1727-1758). -/

/-- BBRInflightHiFromLostPacket: the in-flight prefix at which losses
crossed BBRLossThresh (uint64 subtractions as in the source). -/
def BBRInflightHiFromLostPacket (rs : Rs) (a : AckState) : Nat :=
  let packet_size := a.nb_bytes_newly_lost
  let inflight_prev := u64sub rs.tx_in_flight packet_size
  let lost_prev := u64sub rs.lost packet_size
  let lost_prefix_q : Dbl :=
    BBRLossThresh * Dbl.ofNat (u64sub inflight_prev lost_prev) /
      (1 - BBRLossThresh)
  u64add inflight_prev (dblToU64 lost_prefix_q)

/-- BBRSetRsFromAckState: build the rate sample from the path counters and
the per-ACK data, with the delivery-rate fallbacks. -/
def BBRSetRsFromAckState (p : PathState) (a : AckState) : Rs where
  delivery_rate :=
    if 0 < p.bandwidth_estimate then p.bandwidth_estimate
    else if 0 < a.rtt_measurement then
      u64mul 1000000 a.nb_bytes_delivered_since_packet_sent /
        a.rtt_measurement
    else 40000
  delivered := a.nb_bytes_delivered_since_packet_sent
  rtt_sample := p.rtt_sample
  newly_acked := a.nb_bytes_acknowledged
  newly_lost := a.nb_bytes_newly_lost
  lost := a.nb_bytes_lost_since_packet_sent
  tx_in_flight := a.inflight_prior
  is_app_limited := a.is_app_limited
  is_cwnd_limited := a.is_cwnd_limited

/-- BBRHandleLostPacket: only packets sent while probing bandwidth count;
replace tx_in_flight by the loss prefix before handling. -/
def BBRHandleLostPacket (s : BbrState) (p : PathState) (a : AckState)
    (current_time : Nat) : BbrState :=
  if s.bw_probe_samples = 0 then s
  else
    let rs := BBRSetRsFromAckState p a
    if IsInflightTooHigh p rs then
      BBRHandleInflightTooHigh s p
        { rs with tx_in_flight := BBRInflightHiFromLostPacket rs a }
        current_time
    else s

/-- BBRUpdateOnLoss. -/
def BBRUpdateOnLoss (s : BbrState) (p : PathState) (a : AckState)
    (current_time : Nat) : BbrState :=
  BBRHandleLostPacket s p a current_time

/- Per-ACK steps (bbr.c 1763-1850). -/

/-- BBRUpdateModelAndState: the eleven-stage per-ACK model update, ending
with the bandwidth bound. -/
def BBRUpdateModelAndState (s : BbrState) (p : PathState) (rs : Rs)
    (current_time : Nat) : BbrState × PathState :=
  let s := BBRUpdateLatestDeliverySignals s p rs
  let s := BBRUpdateCongestionSignals s p rs
  let s := BBRUpdateACKAggregation s p rs current_time
  let sp := BBRCheckStartupLongRtt s p rs current_time
  let sp := BBRCheckStartupDone sp.1 sp.2 rs current_time
  let s := BBRCheckDrain sp.1 sp.2 current_time
  let s := BBRUpdateProbeBWCyclePhase s sp.2 rs current_time
  let s := BBRUpdateMinRTT s sp.2 rs current_time
  let sp2 := BBRCheckProbeRTT s sp.2 rs current_time
  let s := BBRAdvanceLatestDeliverySignals sp2.1 rs
  (BBRBoundBWForModel s, sp2.2)

/-- BBRUpdateControlParameters. -/
def BBRUpdateControlParameters (s : BbrState) (p : PathState) (rs : Rs) :
    BbrState × PathState :=
  let s := BBRSetPacingRate s
  let s := BBRSetSendQuantum s p
  BBRSetCwnd s p rs

/-- BBRUpdateOnACK: model update, then HyStart-style or BBR control
parameter derivation depending on the long-RTT mode. -/
def BBRUpdateOnACK (s : BbrState) (p : PathState) (rs : Rs)
    (current_time : Nat) : BbrState × PathState :=
  let sp := BBRUpdateModelAndState s p rs current_time
  if sp.1.state = .startup_long_rtt then
    BBRUpdateStartupLongRtt sp.1 sp.2 rs current_time
  else BBRUpdateControlParameters sp.1 sp.2 rs

/-- picoquic_bbr_notify_ack. -/
def picoquic_bbr_notify_ack (s : BbrState) (p : PathState) (a : AckState)
    (current_time : Nat) : BbrState × PathState :=
  BBRUpdateOnACK s p (BBRSetRsFromAckState p a) current_time

/-- The congestion notifications of the picoquic API that the dispatcher
distinguishes (picoquic_congestion_notification_t). -/
inductive CcNotification where
  | acknowledgement
  | repeat_packet
  | timeout
  | spurious_repeat
  | ecn_ec
  | rtt_measurement
  | cwin_blocked
  | reset
  | seed_cwin
deriving DecidableEq, Repr

/-- picoquic_bbr_notify: mark the cc data updated, then dispatch; a null
controller state skips all processing.  The pacer publication after an
acknowledgement (picoquic_update_pacing_rate or picoquic_update_pacing_data)
is an external output call and changes none of the modelled state. -/
def picoquic_bbr_notify (os : Option BbrState) (p : PathState)
    (n : CcNotification) (a : AckState) (current_time : Nat) :
    Option BbrState × PathState :=
  let p := { p with is_cc_data_updated := true }
  match os with
  | none => (none, p)
  | some s =>
    match n with
    | .ecn_ec => (some s, p)
    | .repeat_packet => (some (BBRUpdateOnLoss s p a current_time), p)
    | .timeout => (some (BBRUpdateOnLoss s p a current_time), p)
    | .spurious_repeat => (some s, p)
    | .rtt_measurement => (some s, p)
    | .acknowledgement =>
      let sp := picoquic_bbr_notify_ack s p a current_time
      (some sp.1, sp.2)
    | .cwin_blocked => (some s, p)
    | .reset => (some (picoquic_bbr_reset p current_time), p)
    | .seed_cwin => (some (BBRSetBdpSeed s a.nb_bytes_acknowledged), p)

/-- picoquic_bbr_observe: the enum value of the phase and btl_bw. -/
def picoquic_bbr_observe (s : BbrState) : Nat × Nat :=
  (algStateVal s.state, s.btl_bw)

/- Notification sequences. -/

/-- The transport-owned path fields as refreshed before a notification. -/
structure PathInputs where
  delivered : Nat
  bytes_in_transit : Nat
  send_mtu : Nat
  smoothed_rtt : Nat
  rtt_variant : Nat
  rtt_min : Nat
  rtt_sample : Nat
  bandwidth_estimate : Nat
  peak_bandwidth_estimate : Nat
  pacing_packet_time_microsec : Nat
  last_time_acked_data_frame_sent : Nat
  last_sender_limited_time : Nat
deriving DecidableEq, Repr

/-- Refresh the transport-owned path fields, keeping the controller-owned
cwin, is_ssthresh_initialized and is_cc_data_updated. -/
def applyInputs (p : PathState) (i : PathInputs) : PathState :=
  { p with delivered := i.delivered,
           bytes_in_transit := i.bytes_in_transit,
           send_mtu := i.send_mtu,
           smoothed_rtt := i.smoothed_rtt,
           rtt_variant := i.rtt_variant,
           rtt_min := i.rtt_min,
           rtt_sample := i.rtt_sample,
           bandwidth_estimate := i.bandwidth_estimate,
           peak_bandwidth_estimate := i.peak_bandwidth_estimate,
           pacing_packet_time_microsec := i.pacing_packet_time_microsec,
           last_time_acked_data_frame_sent := i.last_time_acked_data_frame_sent,
           last_sender_limited_time := i.last_sender_limited_time }

/-- One notification delivered to the controller: fresh transport counters,
the notification, its per-ACK data and the current time. -/
structure CcEvent where
  inputs : PathInputs
  notif : CcNotification
  ack : AckState
  current_time : Nat
deriving DecidableEq, Repr

/-- One dispatcher step on the paired controller and path state. -/
def bbrStep (sp : Option BbrState × PathState) (e : CcEvent) :
    Option BbrState × PathState :=
  picoquic_bbr_notify sp.1 (applyInputs sp.2 e.inputs) e.notif e.ack
    e.current_time

/-- A full run: initialisation at t0 on the initial path state, then the
notification sequence. -/
def bbrRun (alloc_ok : Bool) (p0 : PathState) (t0 : Nat)
    (events : List CcEvent) : Option BbrState × PathState :=
  events.foldl bbrStep (picoquic_bbr_init alloc_ok p0 t0, p0)

/-- The outputs the transport consumes after a step. -/
structure CcOutputs where
  cwin : Nat
  pacing_rate : Dbl
  send_quantum : Nat
  observe_state : Nat
  observe_param : Nat
deriving DecidableEq, Repr

/-- Outputs read from a controller-and-path pair (none when the state is
null). -/
def outputsOf (sp : Option BbrState × PathState) : Option CcOutputs :=
  sp.1.map fun s =>
    { cwin := sp.2.cwin, pacing_rate := s.pacing_rate,
      send_quantum := s.send_quantum,
      observe_state := (picoquic_bbr_observe s).1,
      observe_param := (picoquic_bbr_observe s).2 }

/-- The output trace of a run, one record per notification. -/
def bbrTrace (alloc_ok : Bool) (p0 : PathState) (t0 : Nat)
    (events : List CcEvent) : List (Option CcOutputs) :=
  ((events.scanl bbrStep (picoquic_bbr_init alloc_ok p0 t0, p0)).map
    outputsOf)

/- Concrete fixtures used by witnesses and counterexamples. -/

/-- A typical path record at connection start (MSS 1536, 50 ms RTT). -/
def basePath : PathState where
  cwin := 15360
  delivered := 0
  bytes_in_transit := 0
  send_mtu := 1536
  smoothed_rtt := 50000
  rtt_variant := 10000
  rtt_min := 50000
  rtt_sample := 50000
  bandwidth_estimate := 1000000
  peak_bandwidth_estimate := 1000000
  pacing_packet_time_microsec := 1000
  last_time_acked_data_frame_sent := 0
  last_sender_limited_time := 0
  unique_path_id := 0
  client_mode := true
  is_ssthresh_initialized := false
  is_cc_data_updated := false

/-- Typical transport counters for a first acknowledgement. -/
def baseInputs : PathInputs where
  delivered := 10000
  bytes_in_transit := 20000
  send_mtu := 1536
  smoothed_rtt := 50000
  rtt_variant := 10000
  rtt_min := 50000
  rtt_sample := 50000
  bandwidth_estimate := 1000000
  peak_bandwidth_estimate := 1000000
  pacing_packet_time_microsec := 1000
  last_time_acked_data_frame_sent := 0
  last_sender_limited_time := 0

/-- Typical per-ACK data with no losses. -/
def baseAck : AckState where
  nb_bytes_acknowledged := 1000
  nb_bytes_delivered_since_packet_sent := 10000
  nb_bytes_newly_lost := 0
  nb_bytes_lost_since_packet_sent := 0
  inflight_prior := 20000
  rtt_measurement := 50000
  is_app_limited := false
  is_cwnd_limited := false

/- List helpers for the filter-slot statements. -/

lemma list_getD_set_self (l : List Nat) (i v : Nat) (h : i < l.length) :
    (l.set i v).getD i 0 = v := by
  simp [List.getD, List.getElem?_set, h]

lemma list_getD_set_ne (l : List Nat) (i j v : Nat) (h : i ≠ j) :
    (l.set i v).getD j 0 = l.getD j 0 := by
  simp [List.getD, List.getElem?_set, h]

/-- Claim C3: on every ACK, BBRUpdateRound sets round_start exactly when
path.delivered has reached next_round_delivered; in that case round_count
and rounds_since_probe grow by one, next_round_delivered advances to
delivered plus bytes_in_transit (uint64 addition) and the extra-acked
filter slot of the new round index is zeroed while all other slots are
untouched; otherwise round_start is false and all of these are unchanged.
The hypothesis records that the filter has its allocated length
BBRExtraAckedFilterLen, which holds for every state the code constructs. -/
theorem claim_C3_round_counter (s : BbrState) (p : PathState)
    (hlen : s.ExtraACKedFilter.length = BBRExtraAckedFilterLen) :
    ((BBRUpdateRound s p).round_start = true ↔
      s.next_round_delivered ≤ p.delivered) ∧
    (s.next_round_delivered ≤ p.delivered →
      (BBRUpdateRound s p).round_count = s.round_count + 1 ∧
      (BBRUpdateRound s p).rounds_since_probe = s.rounds_since_probe + 1 ∧
      (BBRUpdateRound s p).next_round_delivered =
        u64add p.delivered p.bytes_in_transit ∧
      (BBRUpdateRound s p).ExtraACKedFilter.getD
        ((BBRUpdateRound s p).round_count % BBRExtraAckedFilterLen) 0 = 0 ∧
      (∀ i, i < BBRExtraAckedFilterLen →
        i ≠ (BBRUpdateRound s p).round_count % BBRExtraAckedFilterLen →
        (BBRUpdateRound s p).ExtraACKedFilter.getD i 0 =
          s.ExtraACKedFilter.getD i 0)) ∧
    (¬ s.next_round_delivered ≤ p.delivered →
      (BBRUpdateRound s p).round_start = false ∧
      (BBRUpdateRound s p).round_count = s.round_count ∧
      (BBRUpdateRound s p).rounds_since_probe = s.rounds_since_probe ∧
      (BBRUpdateRound s p).next_round_delivered = s.next_round_delivered ∧
      (BBRUpdateRound s p).ExtraACKedFilter = s.ExtraACKedFilter) := by
  have hten : 0 < BBRExtraAckedFilterLen := by decide
  by_cases hc : s.next_round_delivered ≤ p.delivered
  · have hres : BBRUpdateRound s p =
        { s with next_round_delivered := u64add p.delivered p.bytes_in_transit,
                 round_count := s.round_count + 1,
                 rounds_since_probe := s.rounds_since_probe + 1,
                 round_start := true,
                 ExtraACKedFilter := s.ExtraACKedFilter.set
                   ((s.round_count + 1) % s.ExtraACKedFilter.length) 0 } := by
      simp [BBRUpdateRound, BBRStartRound, start_windowed_max_filter_period, hc]
    rw [hlen] at hres
    rw [hres]
    refine ⟨by simp [hc], fun _ => ⟨rfl, rfl, rfl, ?_, ?_⟩,
      fun hn => absurd hc hn⟩
    · exact list_getD_set_self _ _ _ (by rw [hlen]; exact Nat.mod_lt _ hten)
    · intro i hi hne
      exact list_getD_set_ne _ _ _ _ (fun e => hne e.symm)
  · have hres : BBRUpdateRound s p = { s with round_start := false } := by
      simp [BBRUpdateRound, hc]
    rw [hres]
    exact ⟨by simp [hc], fun h => absurd h hc,
      fun _ => ⟨rfl, rfl, rfl, rfl, rfl⟩⟩

/-- Witness for claim C3 at a concrete state and path. -/
theorem claim_C3_witness :
    bbrZero.ExtraACKedFilter.length = BBRExtraAckedFilterLen ∧
    ((BBRUpdateRound bbrZero basePath).round_start = true ↔
      bbrZero.next_round_delivered ≤ basePath.delivered) :=
  ⟨rfl, (claim_C3_round_counter bbrZero basePath rfl).1⟩

/-- Claim C4: BBRSetSendQuantum clamps a millisecond of pacing into
[floor, 65536] where floor is one MSS below 150000 B/s of pacing rate and
two MSS otherwise; hence the resulting send_quantum always lies in that
interval.  The hypothesis 2·MSS ≤ 65536 delimits the claim's interval
(it holds for every real MTU; QUIC packets never reach 32 KB). -/
theorem claim_C4_send_quantum (s : BbrState) (p : PathState)
    (h : 2 * p.send_mtu ≤ 65536) :
    (BBRSetSendQuantum s p).send_quantum =
      max (if s.pacing_rate < (150000 : Dbl) then p.send_mtu else 2 * p.send_mtu)
        (min (dblToU64 (s.pacing_rate / 1000)) 65536) ∧
    (if s.pacing_rate < (150000 : Dbl) then p.send_mtu else 2 * p.send_mtu) ≤
      (BBRSetSendQuantum s p).send_quantum ∧
    (BBRSetSendQuantum s p).send_quantum ≤ 65536 := by
  unfold BBRSetSendQuantum
  dsimp only
  split_ifs <;> omega

/-- Witness for claim C4: a 2.74 MB/s pacing rate yields the two-MSS floor. -/
theorem claim_C4_witness :
    2 * basePath.send_mtu ≤ 65536 ∧
    (BBRSetSendQuantum { bbrZero with pacing_rate := 2742300 } basePath).send_quantum ≤ 65536 :=
  ⟨by decide,
   (claim_C4_send_quantum { bbrZero with pacing_rate := 2742300 } basePath
     (by decide)).2.2⟩

/-- The state before the spurious-repeat notification of claim C7: an
RTO-style shrink left cwin at 10000 while prior_cwnd holds 20000. -/
def c7_state : BbrState := { bbrZero with prior_cwnd := 20000 }

/-- The path before the spurious-repeat notification of claim C7. -/
def c7_path : PathState := { basePath with cwin := 10000 }

/-- Claim C7 (failing input): a SpuriousRepeat notification with
prior_cwnd = 20000 > cwin = 10000 leaves both the window and the whole
controller state unchanged: the dispatcher branch is an explicit no-op
(bbr.c line 1876, "TODO: handling of suspension"), so cwin is not restored
to prior_cwnd as the claim - and the source's own design comment at
bbr.c lines 188-210 - require. -/
theorem claim_C7_spurious_repeat_noop :
    (picoquic_bbr_notify (some c7_state) c7_path .spurious_repeat baseAck
      5000).2.cwin = 10000 ∧
    (picoquic_bbr_notify (some c7_state) c7_path .spurious_repeat baseAck
      5000).1 = some c7_state ∧
    c7_state.prior_cwnd = 20000 ∧ (10000 : Nat) < 20000 :=
  ⟨rfl, rfl, rfl, by norm_num⟩

/-- Claim C9: with a null per-path congestion state, every notification is
silently skipped: the dispatcher only sets is_cc_data_updated on the path,
mutates nothing else, and returns. -/
theorem claim_C9_null_state_skip (p : PathState) (n : CcNotification)
    (a : AckState) (ct : Nat) :
    picoquic_bbr_notify none p n a ct =
      (none, { p with is_cc_data_updated := true }) := rfl

/-- Claim C8: determinism.  The embedding of the controller is a pure
function of the initialisation arguments and the notification stream - the
source threads all randomness through the explicit random_context seeded by
BBRInitRandom from (current_time, client_mode, unique_path_id) and reads no
other ambient state - so two controllers initialised identically and fed
identical streams produce identical output traces (cwin, pacing_rate,
send_quantum and the Observe pair after every notification). -/
theorem claim_C8_determinism (alloc1 alloc2 : Bool) (p1 p2 : PathState)
    (t1 t2 : Nat) (evs1 evs2 : List CcEvent) (halloc : alloc1 = alloc2)
    (hp : p1 = p2) (ht : t1 = t2) (hev : evs1 = evs2) :
    bbrTrace alloc1 p1 t1 evs1 = bbrTrace alloc2 p2 t2 evs2 := by
  subst halloc; subst hp; subst ht; subst hev; rfl

/-- Witness for claim C8 on a concrete one-acknowledgement stream. -/
theorem claim_C8_witness :
    bbrTrace true basePath 0
      [{ inputs := baseInputs, notif := .acknowledgement, ack := baseAck,
         current_time := 10000 }] =
    bbrTrace true basePath 0
      [{ inputs := baseInputs, notif := .acknowledgement, ack := baseAck,
         current_time := 10000 }] :=
  claim_C8_determinism true true basePath basePath 0 0
    [{ inputs := baseInputs, notif := .acknowledgement, ack := baseAck,
       current_time := 10000 }]
    [{ inputs := baseInputs, notif := .acknowledgement, ack := baseAck,
       current_time := 10000 }] rfl rfl rfl rfl

/- Projection-push helpers: field projections distribute over ite. -/

@[simp] lemma pc_ite (c : Prop) [Decidable c] (a b : BbrState) :
    (if c then a else b).packet_conservation =
      if c then a.packet_conservation else b.packet_conservation := by
  split <;> rfl

@[simp] lemma btl_ite (c : Prop) [Decidable c] (a b : BbrState) :
    (if c then a else b).btl_bw = if c then a.btl_bw else b.btl_bw := by
  split <;> rfl

@[simp] lemma fst_ite {α β : Type} (c : Prop) [Decidable c] (a b : α × β) :
    (if c then a else b).1 = if c then a.1 else b.1 := by split <;> rfl

@[simp] lemma snd_ite {α β : Type} (c : Prop) [Decidable c] (a b : α × β) :
    (if c then a else b).2 = if c then a.2 else b.2 := by split <;> rfl

/- Field preservation: no function reachable from the notification
dispatcher ever writes packet_conservation or btl_bw (the only writers,
BBROnEnterFastRecovery and the btl_bw field itself, are dead code). -/

@[simp] lemma frame_BBRInitRandom (s : BbrState) (p : PathState) (t : Nat) :
    (BBRInitRandom s p t).packet_conservation = s.packet_conservation ∧
    (BBRInitRandom s p t).btl_bw = s.btl_bw := by simp [BBRInitRandom]

@[simp] lemma frame_BBRInitFullPipe (s : BbrState) :
    (BBRInitFullPipe s).packet_conservation = s.packet_conservation ∧
    (BBRInitFullPipe s).btl_bw = s.btl_bw := by simp [BBRInitFullPipe]

@[simp] lemma frame_BBRResetCongestionSignals (s : BbrState) :
    (BBRResetCongestionSignals s).packet_conservation = s.packet_conservation ∧
    (BBRResetCongestionSignals s).btl_bw = s.btl_bw := by simp [BBRResetCongestionSignals]

@[simp] lemma frame_BBRResetLowerBounds (s : BbrState) :
    (BBRResetLowerBounds s).packet_conservation = s.packet_conservation ∧
    (BBRResetLowerBounds s).btl_bw = s.btl_bw := by simp [BBRResetLowerBounds]

@[simp] lemma frame_BBRInitRoundCounting (s : BbrState) :
    (BBRInitRoundCounting s).packet_conservation = s.packet_conservation ∧
    (BBRInitRoundCounting s).btl_bw = s.btl_bw := by simp [BBRInitRoundCounting]

@[simp] lemma frame_BBRInitPacingRate (s : BbrState) (p : PathState) :
    (BBRInitPacingRate s p).packet_conservation = s.packet_conservation ∧
    (BBRInitPacingRate s p).btl_bw = s.btl_bw := by simp [BBRInitPacingRate]

@[simp] lemma frame_BBREnterStartup (s : BbrState) :
    (BBREnterStartup s).packet_conservation = s.packet_conservation ∧
    (BBREnterStartup s).btl_bw = s.btl_bw := by simp [BBREnterStartup]

@[simp] lemma frame_BBRBDPMultipleWithBw (s : BbrState) (p : PathState) (g : Dbl) (bw : Nat) :
    ((BBRBDPMultipleWithBw s p g bw).1).packet_conservation = s.packet_conservation ∧
    ((BBRBDPMultipleWithBw s p g bw).1).btl_bw = s.btl_bw := by simp [BBRBDPMultipleWithBw]

@[simp] lemma frame_BBRBDPMultiple (s : BbrState) (p : PathState) (g : Dbl) :
    ((BBRBDPMultiple s p g).1).packet_conservation = s.packet_conservation ∧
    ((BBRBDPMultiple s p g).1).btl_bw = s.btl_bw := by simp [BBRBDPMultiple]

@[simp] lemma frame_BBRProbeRTTCwnd (s : BbrState) (p : PathState) :
    ((BBRProbeRTTCwnd s p).1).packet_conservation = s.packet_conservation ∧
    ((BBRProbeRTTCwnd s p).1).btl_bw = s.btl_bw := by simp [BBRProbeRTTCwnd]

@[simp] lemma frame_BBRBoundCwndForProbeRTT (s : BbrState) (p : PathState) :
    ((BBRBoundCwndForProbeRTT s p).1).packet_conservation = s.packet_conservation ∧
    ((BBRBoundCwndForProbeRTT s p).1).btl_bw = s.btl_bw := by simp [BBRBoundCwndForProbeRTT]

@[simp] lemma frame_BBRUpdateOffloadBudget (s : BbrState) :
    (BBRUpdateOffloadBudget s).packet_conservation = s.packet_conservation ∧
    (BBRUpdateOffloadBudget s).btl_bw = s.btl_bw := by simp [BBRUpdateOffloadBudget]

@[simp] lemma frame_BBRQuantizationBudget (s : BbrState) (p : PathState) (n : Nat) :
    ((BBRQuantizationBudget s p n).1).packet_conservation = s.packet_conservation ∧
    ((BBRQuantizationBudget s p n).1).btl_bw = s.btl_bw := by simp [BBRQuantizationBudget]

@[simp] lemma frame_BBRInflightWithBw (s : BbrState) (p : PathState) (g : Dbl) (bw : Nat) :
    ((BBRInflightWithBw s p g bw).1).packet_conservation = s.packet_conservation ∧
    ((BBRInflightWithBw s p g bw).1).btl_bw = s.btl_bw := by simp [BBRInflightWithBw]

@[simp] lemma frame_BBRInflight (s : BbrState) (p : PathState) (g : Dbl) :
    ((BBRInflight s p g).1).packet_conservation = s.packet_conservation ∧
    ((BBRInflight s p g).1).btl_bw = s.btl_bw := by simp [BBRInflight]

@[simp] lemma frame_BBRUpdateMaxInflight (s : BbrState) (p : PathState) :
    (BBRUpdateMaxInflight s p).packet_conservation = s.packet_conservation ∧
    (BBRUpdateMaxInflight s p).btl_bw = s.btl_bw := by simp [BBRUpdateMaxInflight]

@[simp] lemma frame_BBRSetCwnd (s : BbrState) (p : PathState) (rs : Rs) :
    ((BBRSetCwnd s p rs).1).packet_conservation = s.packet_conservation ∧
    ((BBRSetCwnd s p rs).1).btl_bw = s.btl_bw := by simp [BBRSetCwnd]

@[simp] lemma frame_BBRSetPacingRateWithGain (s : BbrState) (g : Dbl) :
    (BBRSetPacingRateWithGain s g).packet_conservation = s.packet_conservation ∧
    (BBRSetPacingRateWithGain s g).btl_bw = s.btl_bw := by simp [BBRSetPacingRateWithGain]

@[simp] lemma frame_BBRSetPacingRate (s : BbrState) :
    (BBRSetPacingRate s).packet_conservation = s.packet_conservation ∧
    (BBRSetPacingRate s).btl_bw = s.btl_bw := by simp [BBRSetPacingRate]

@[simp] lemma frame_BBRSetSendQuantum (s : BbrState) (p : PathState) :
    (BBRSetSendQuantum s p).packet_conservation = s.packet_conservation ∧
    (BBRSetSendQuantum s p).btl_bw = s.btl_bw := by simp [BBRSetSendQuantum]

@[simp] lemma frame_BBRUpdateLatestDeliverySignals (s : BbrState) (p : PathState) (rs : Rs) :
    (BBRUpdateLatestDeliverySignals s p rs).packet_conservation = s.packet_conservation ∧
    (BBRUpdateLatestDeliverySignals s p rs).btl_bw = s.btl_bw := by simp [BBRUpdateLatestDeliverySignals]

@[simp] lemma frame_BBRAdvanceLatestDeliverySignals (s : BbrState) (rs : Rs) :
    (BBRAdvanceLatestDeliverySignals s rs).packet_conservation = s.packet_conservation ∧
    (BBRAdvanceLatestDeliverySignals s rs).btl_bw = s.btl_bw := by simp [BBRAdvanceLatestDeliverySignals]

@[simp] lemma frame_BBRInitLowerBounds (s : BbrState) (p : PathState) :
    (BBRInitLowerBounds s p).packet_conservation = s.packet_conservation ∧
    (BBRInitLowerBounds s p).btl_bw = s.btl_bw := by simp [BBRInitLowerBounds]

@[simp] lemma frame_BBRLossLowerBounds (s : BbrState) :
    (BBRLossLowerBounds s).packet_conservation = s.packet_conservation ∧
    (BBRLossLowerBounds s).btl_bw = s.btl_bw := by simp [BBRLossLowerBounds]

@[simp] lemma frame_BBRAdaptLowerBoundsFromCongestion (s : BbrState) (p : PathState) :
    (BBRAdaptLowerBoundsFromCongestion s p).packet_conservation = s.packet_conservation ∧
    (BBRAdaptLowerBoundsFromCongestion s p).btl_bw = s.btl_bw := by simp [BBRAdaptLowerBoundsFromCongestion]

@[simp] lemma frame_BBRStartRound (s : BbrState) (p : PathState) :
    (BBRStartRound s p).packet_conservation = s.packet_conservation ∧
    (BBRStartRound s p).btl_bw = s.btl_bw := by simp [BBRStartRound]

@[simp] lemma frame_BBRUpdateRound (s : BbrState) (p : PathState) :
    (BBRUpdateRound s p).packet_conservation = s.packet_conservation ∧
    (BBRUpdateRound s p).btl_bw = s.btl_bw := by simp [BBRUpdateRound]

@[simp] lemma frame_BBRUpdateMaxBw (s : BbrState) (p : PathState) (rs : Rs) :
    (BBRUpdateMaxBw s p rs).packet_conservation = s.packet_conservation ∧
    (BBRUpdateMaxBw s p rs).btl_bw = s.btl_bw := by simp [BBRUpdateMaxBw]

@[simp] lemma frame_BBRUpdateCongestionSignals (s : BbrState) (p : PathState) (rs : Rs) :
    (BBRUpdateCongestionSignals s p rs).packet_conservation = s.packet_conservation ∧
    (BBRUpdateCongestionSignals s p rs).btl_bw = s.btl_bw := by simp [BBRUpdateCongestionSignals]

@[simp] lemma frame_BBRBoundBWForModel (s : BbrState) :
    (BBRBoundBWForModel s).packet_conservation = s.packet_conservation ∧
    (BBRBoundBWForModel s).btl_bw = s.btl_bw := by simp [BBRBoundBWForModel]

@[simp] lemma frame_BBRAdvanceMaxBwFilter (s : BbrState) :
    (BBRAdvanceMaxBwFilter s).packet_conservation = s.packet_conservation ∧
    (BBRAdvanceMaxBwFilter s).btl_bw = s.btl_bw := by simp [BBRAdvanceMaxBwFilter]

@[simp] lemma frame_BBRUpdateACKAggregation (s : BbrState) (p : PathState) (rs : Rs) (t : Nat) :
    (BBRUpdateACKAggregation s p rs t).packet_conservation = s.packet_conservation ∧
    (BBRUpdateACKAggregation s p rs t).btl_bw = s.btl_bw := by simp [BBRUpdateACKAggregation]

@[simp] lemma frame_BBRRandomIntBetween (s : BbrState) (lo hi : Nat) :
    ((BBRRandomIntBetween s lo hi).1).packet_conservation = s.packet_conservation ∧
    ((BBRRandomIntBetween s lo hi).1).btl_bw = s.btl_bw := by simp [BBRRandomIntBetween]

@[simp] lemma frame_BBRPickProbeWait (s : BbrState) :
    (BBRPickProbeWait s).packet_conservation = s.packet_conservation ∧
    (BBRPickProbeWait s).btl_bw = s.btl_bw := by simp [BBRPickProbeWait]

@[simp] lemma frame_BBRStartProbeBW_DOWN (s : BbrState) (p : PathState) (t : Nat) :
    (BBRStartProbeBW_DOWN s p t).packet_conservation = s.packet_conservation ∧
    (BBRStartProbeBW_DOWN s p t).btl_bw = s.btl_bw := by simp [BBRStartProbeBW_DOWN]

@[simp] lemma frame_BBRStartProbeBW_CRUISE (s : BbrState) :
    (BBRStartProbeBW_CRUISE s).packet_conservation = s.packet_conservation ∧
    (BBRStartProbeBW_CRUISE s).btl_bw = s.btl_bw := by simp [BBRStartProbeBW_CRUISE]

@[simp] lemma frame_BBRStartProbeBW_REFILL (s : BbrState) (p : PathState) :
    (BBRStartProbeBW_REFILL s p).packet_conservation = s.packet_conservation ∧
    (BBRStartProbeBW_REFILL s p).btl_bw = s.btl_bw := by simp [BBRStartProbeBW_REFILL]

@[simp] lemma frame_BBRRaiseInflightHiSlope (s : BbrState) (p : PathState) :
    (BBRRaiseInflightHiSlope s p).packet_conservation = s.packet_conservation ∧
    (BBRRaiseInflightHiSlope s p).btl_bw = s.btl_bw := by simp [BBRRaiseInflightHiSlope]

@[simp] lemma frame_BBRProbeInflightHiUpward (s : BbrState) (p : PathState) (rs : Rs) :
    (BBRProbeInflightHiUpward s p rs).packet_conservation = s.packet_conservation ∧
    (BBRProbeInflightHiUpward s p rs).btl_bw = s.btl_bw := by simp [BBRProbeInflightHiUpward]

@[simp] lemma frame_BBRStartProbeBW_UP (s : BbrState) (p : PathState) (t : Nat) :
    (BBRStartProbeBW_UP s p t).packet_conservation = s.packet_conservation ∧
    (BBRStartProbeBW_UP s p t).btl_bw = s.btl_bw := by simp [BBRStartProbeBW_UP]

@[simp] lemma frame_BBRHandleInflightTooHigh (s : BbrState) (p : PathState) (rs : Rs) (t : Nat) :
    (BBRHandleInflightTooHigh s p rs t).packet_conservation = s.packet_conservation ∧
    (BBRHandleInflightTooHigh s p rs t).btl_bw = s.btl_bw := by simp [BBRHandleInflightTooHigh]

@[simp] lemma frame_CheckInflightTooHigh (s : BbrState) (p : PathState) (rs : Rs) (t : Nat) :
    ((CheckInflightTooHigh s p rs t).1).packet_conservation = s.packet_conservation ∧
    ((CheckInflightTooHigh s p rs t).1).btl_bw = s.btl_bw := by simp [CheckInflightTooHigh]

@[simp] lemma frame_BBRAdaptMinRttMargin (s : BbrState) (p : PathState) :
    (BBRAdaptMinRttMargin s p).packet_conservation = s.packet_conservation ∧
    (BBRAdaptMinRttMargin s p).btl_bw = s.btl_bw := by simp [BBRAdaptMinRttMargin]

@[simp] lemma frame_BBRUpdateMinRTT (s : BbrState) (p : PathState) (rs : Rs) (t : Nat) :
    (BBRUpdateMinRTT s p rs t).packet_conservation = s.packet_conservation ∧
    (BBRUpdateMinRTT s p rs t).btl_bw = s.btl_bw := by simp [BBRUpdateMinRTT]

@[simp] lemma frame_BBRExitProbeRTT (s : BbrState) (p : PathState) (t : Nat) :
    (BBRExitProbeRTT s p t).packet_conservation = s.packet_conservation ∧
    (BBRExitProbeRTT s p t).btl_bw = s.btl_bw := by simp [BBRExitProbeRTT]

@[simp] lemma frame_BBRCheckProbeRTTDone (s : BbrState) (p : PathState) (t : Nat) :
    ((BBRCheckProbeRTTDone s p t).1).packet_conservation = s.packet_conservation ∧
    ((BBRCheckProbeRTTDone s p t).1).btl_bw = s.btl_bw := by simp [BBRCheckProbeRTTDone]

@[simp] lemma frame_BBREnterProbeRTT (s : BbrState) :
    (BBREnterProbeRTT s).packet_conservation = s.packet_conservation ∧
    (BBREnterProbeRTT s).btl_bw = s.btl_bw := by simp [BBREnterProbeRTT]

@[simp] lemma frame_BBRHandleProbeRTT (s : BbrState) (p : PathState) (rs : Rs) (t : Nat) :
    ((BBRHandleProbeRTT s p rs t).1).packet_conservation = s.packet_conservation ∧
    ((BBRHandleProbeRTT s p rs t).1).btl_bw = s.btl_bw := by simp [BBRHandleProbeRTT]

@[simp] lemma frame_BBRCheckProbeRTT (s : BbrState) (p : PathState) (rs : Rs) (t : Nat) :
    ((BBRCheckProbeRTT s p rs t).1).packet_conservation = s.packet_conservation ∧
    ((BBRCheckProbeRTT s p rs t).1).btl_bw = s.btl_bw := by simp [BBRCheckProbeRTT]

@[simp] lemma frame_BBRAdaptUpperBounds (s : BbrState) (p : PathState) (rs : Rs) (t : Nat) :
    (BBRAdaptUpperBounds s p rs t).packet_conservation = s.packet_conservation ∧
    (BBRAdaptUpperBounds s p rs t).btl_bw = s.btl_bw := by simp [BBRAdaptUpperBounds]

@[simp] lemma frame_BBRCheckTimeToCruise (s : BbrState) (p : PathState) :
    ((BBRCheckTimeToCruise s p).1).packet_conservation = s.packet_conservation ∧
    ((BBRCheckTimeToCruise s p).1).btl_bw = s.btl_bw := by simp [BBRCheckTimeToCruise]

@[simp] lemma frame_BBRCheckTimeToProbeBW (s : BbrState) (p : PathState) (t : Nat) :
    ((BBRCheckTimeToProbeBW s p t).1).packet_conservation = s.packet_conservation ∧
    ((BBRCheckTimeToProbeBW s p t).1).btl_bw = s.btl_bw := by simp [BBRCheckTimeToProbeBW]

@[simp] lemma frame_BBRUpdateProbeBWCyclePhase (s : BbrState) (p : PathState) (rs : Rs) (t : Nat) :
    (BBRUpdateProbeBWCyclePhase s p rs t).packet_conservation = s.packet_conservation ∧
    (BBRUpdateProbeBWCyclePhase s p rs t).btl_bw = s.btl_bw := by
  unfold BBRUpdateProbeBWCyclePhase
  by_cases hf : s.filled_pipe = false
  · simp [hf]
  · rcases hst : (BBRAdaptUpperBounds s p rs t).state <;> simp [hf, hst]

@[simp] lemma frame_BBREnterProbeBW (s : BbrState) (p : PathState) (t : Nat) :
    (BBREnterProbeBW s p t).packet_conservation = s.packet_conservation ∧
    (BBREnterProbeBW s p t).btl_bw = s.btl_bw := by simp [BBREnterProbeBW]

@[simp] lemma frame_BBREnterDrain (s : BbrState) (p : PathState) (t : Nat) :
    ((BBREnterDrain s p t).1).packet_conservation = s.packet_conservation ∧
    ((BBREnterDrain s p t).1).btl_bw = s.btl_bw := by simp [BBREnterDrain]

@[simp] lemma frame_BBRCheckDrain (s : BbrState) (p : PathState) (t : Nat) :
    (BBRCheckDrain s p t).packet_conservation = s.packet_conservation ∧
    (BBRCheckDrain s p t).btl_bw = s.btl_bw := by simp [BBRCheckDrain]

@[simp] lemma frame_BBRCheckStartupHighLoss (s : BbrState) (p : PathState) (rs : Rs) :
    (BBRCheckStartupHighLoss s p rs).packet_conservation = s.packet_conservation ∧
    (BBRCheckStartupHighLoss s p rs).btl_bw = s.btl_bw := by simp [BBRCheckStartupHighLoss]

@[simp] lemma frame_BBRCheckStartupHighRTT (s : BbrState) (p : PathState) (rs : Rs) :
    (BBRCheckStartupHighRTT s p rs).packet_conservation = s.packet_conservation ∧
    (BBRCheckStartupHighRTT s p rs).btl_bw = s.btl_bw := by simp [BBRCheckStartupHighRTT]

@[simp] lemma frame_BBRCheckStartupFullBandwidth (s : BbrState) (rs : Rs) :
    (BBRCheckStartupFullBandwidth s rs).packet_conservation = s.packet_conservation ∧
    (BBRCheckStartupFullBandwidth s rs).btl_bw = s.btl_bw := by simp [BBRCheckStartupFullBandwidth]

@[simp] lemma frame_BBRCheckStartupDone (s : BbrState) (p : PathState) (rs : Rs) (t : Nat) :
    ((BBRCheckStartupDone s p rs t).1).packet_conservation = s.packet_conservation ∧
    ((BBRCheckStartupDone s p rs t).1).btl_bw = s.btl_bw := by simp [BBRCheckStartupDone]

@[simp] lemma frame_BBREnterStartupLongRTT (s : BbrState) (p : PathState) :
    ((BBREnterStartupLongRTT s p).1).packet_conservation = s.packet_conservation ∧
    ((BBREnterStartupLongRTT s p).1).btl_bw = s.btl_bw := by simp [BBREnterStartupLongRTT]

@[simp] lemma frame_BBRExitStartupLongRtt (s : BbrState) (p : PathState) (t : Nat) :
    ((BBRExitStartupLongRtt s p t).1).packet_conservation = s.packet_conservation ∧
    ((BBRExitStartupLongRtt s p t).1).btl_bw = s.btl_bw := by simp [BBRExitStartupLongRtt]

@[simp] lemma frame_BBRCheckStartupLongRttTests (s : BbrState) (p : PathState) (rs : Rs) (t : Nat) :
    ((BBRCheckStartupLongRttTests s p rs t).1).packet_conservation = s.packet_conservation ∧
    ((BBRCheckStartupLongRttTests s p rs t).1).btl_bw = s.btl_bw := by simp [BBRCheckStartupLongRttTests]

@[simp] lemma frame_BBRCheckStartupLongRtt (s : BbrState) (p : PathState) (rs : Rs) (t : Nat) :
    ((BBRCheckStartupLongRtt s p rs t).1).packet_conservation = s.packet_conservation ∧
    ((BBRCheckStartupLongRtt s p rs t).1).btl_bw = s.btl_bw := by simp [BBRCheckStartupLongRtt]

@[simp] lemma frame_BBRUpdateStartupLongRtt (s : BbrState) (p : PathState) (rs : Rs) (t : Nat) :
    ((BBRUpdateStartupLongRtt s p rs t).1).packet_conservation = s.packet_conservation ∧
    ((BBRUpdateStartupLongRtt s p rs t).1).btl_bw = s.btl_bw := by simp [BBRUpdateStartupLongRtt]

@[simp] lemma frame_BBRSetBdpSeed (s : BbrState) (n : Nat) :
    (BBRSetBdpSeed s n).packet_conservation = s.packet_conservation ∧
    (BBRSetBdpSeed s n).btl_bw = s.btl_bw := by simp [BBRSetBdpSeed]

@[simp] lemma frame_BBRHandleLostPacket (s : BbrState) (p : PathState) (a : AckState) (t : Nat) :
    (BBRHandleLostPacket s p a t).packet_conservation = s.packet_conservation ∧
    (BBRHandleLostPacket s p a t).btl_bw = s.btl_bw := by simp [BBRHandleLostPacket]

@[simp] lemma frame_BBRUpdateOnLoss (s : BbrState) (p : PathState) (a : AckState) (t : Nat) :
    (BBRUpdateOnLoss s p a t).packet_conservation = s.packet_conservation ∧
    (BBRUpdateOnLoss s p a t).btl_bw = s.btl_bw := by simp [BBRUpdateOnLoss]

@[simp] lemma frame_BBRUpdateModelAndState (s : BbrState) (p : PathState) (rs : Rs) (t : Nat) :
    ((BBRUpdateModelAndState s p rs t).1).packet_conservation = s.packet_conservation ∧
    ((BBRUpdateModelAndState s p rs t).1).btl_bw = s.btl_bw := by simp [BBRUpdateModelAndState]

@[simp] lemma frame_BBRUpdateControlParameters (s : BbrState) (p : PathState) (rs : Rs) :
    ((BBRUpdateControlParameters s p rs).1).packet_conservation = s.packet_conservation ∧
    ((BBRUpdateControlParameters s p rs).1).btl_bw = s.btl_bw := by simp [BBRUpdateControlParameters]

@[simp] lemma frame_BBRUpdateOnACK (s : BbrState) (p : PathState) (rs : Rs) (t : Nat) :
    ((BBRUpdateOnACK s p rs t).1).packet_conservation = s.packet_conservation ∧
    ((BBRUpdateOnACK s p rs t).1).btl_bw = s.btl_bw := by simp [BBRUpdateOnACK]

@[simp] lemma frame_picoquic_bbr_notify_ack (s : BbrState) (p : PathState) (a : AckState) (t : Nat) :
    ((picoquic_bbr_notify_ack s p a t).1).packet_conservation = s.packet_conservation ∧
    ((picoquic_bbr_notify_ack s p a t).1).btl_bw = s.btl_bw := by simp [picoquic_bbr_notify_ack]

/-- BBROnInit zeroes btl_bw and packet_conservation. -/
@[simp] lemma frame_BBROnInit (p : PathState) (t : Nat) :
    (BBROnInit p t).packet_conservation = false ∧
    (BBROnInit p t).btl_bw = 0 := by
  simp [BBROnInit, BBRInitRandom, BBRResetCongestionSignals,
    BBRResetLowerBounds, BBRInitRoundCounting, BBRInitFullPipe,
    BBRInitPacingRate, BBREnterStartup, bbrZero]

/- The run invariant behind claims C2 and C10: packet_conservation stays
false and btl_bw stays zero across every notification. -/

/-- The conjunction of the two never-written facts. -/
def NeverWritten (s : BbrState) : Prop :=
  s.packet_conservation = false ∧ s.btl_bw = 0

lemma neverWritten_init (p : PathState) (t : Nat) :
    NeverWritten (BBROnInit p t) := frame_BBROnInit p t

lemma neverWritten_notify (s : BbrState) (p : PathState)
    (n : CcNotification) (a : AckState) (ct : Nat) (s' : BbrState)
    (h : (picoquic_bbr_notify (some s) p n a ct).1 = some s')
    (hs : NeverWritten s) : NeverWritten s' := by
  rcases hs with ⟨h1, h2⟩
  cases n <;>
    simp only [picoquic_bbr_notify, Option.some.injEq] at h <;>
    subst h <;>
    constructor <;>
    simp [picoquic_bbr_reset, BBRUpdateOnLoss, BBRSetBdpSeed, h1, h2]

lemma neverWritten_step (sp : Option BbrState × PathState) (e : CcEvent)
    (hsp : ∀ s, sp.1 = some s → NeverWritten s) :
    ∀ s', (bbrStep sp e).1 = some s' → NeverWritten s' := by
  intro s' h
  unfold bbrStep at h
  rcases ho : sp.1 with _ | s
  · rw [ho] at h; simp [picoquic_bbr_notify] at h
  · exact neverWritten_notify s _ e.notif e.ack e.current_time s' (ho ▸ h)
      (hsp s ho)

lemma neverWritten_foldl (events : List CcEvent) :
    ∀ sp : Option BbrState × PathState,
      (∀ s, sp.1 = some s → NeverWritten s) →
      ∀ s', (events.foldl bbrStep sp).1 = some s' → NeverWritten s' := by
  induction events with
  | nil => intro sp hsp s' h; exact hsp s' h
  | cons e evs ih =>
    intro sp hsp s' h
    simp only [List.foldl_cons] at h
    exact ih (bbrStep sp e) (neverWritten_step sp e hsp) s' h

lemma neverWritten_run (alloc : Bool) (p0 : PathState) (t0 : Nat)
    (events : List CcEvent) :
    ∀ s', (bbrRun alloc p0 t0 events).1 = some s' → NeverWritten s' := by
  intro s' h
  refine neverWritten_foldl events (picoquic_bbr_init alloc p0 t0, p0) ?_ s' h
  intro s hs
  rcases alloc with _ | _
  · simp [picoquic_bbr_init] at hs
  · simp only [picoquic_bbr_init, if_true, Option.some.injEq] at hs
    exact hs ▸ neverWritten_init p0 t0

/- More projection-push helpers over ite, one per field used in the
claim-specific preservation lemmas. -/

@[simp] lemma push_bw_ite (c : Prop) [Decidable c] (a b : BbrState) :
    (if c then a else b).bw = if c then a.bw else b.bw := by split <;> rfl

@[simp] lemma push_max_bw_ite (c : Prop) [Decidable c] (a b : BbrState) :
    (if c then a else b).max_bw = if c then a.max_bw else b.max_bw := by split <;> rfl

@[simp] lemma push_bw_lo_ite (c : Prop) [Decidable c] (a b : BbrState) :
    (if c then a else b).bw_lo = if c then a.bw_lo else b.bw_lo := by split <;> rfl

@[simp] lemma push_bw_hi_ite (c : Prop) [Decidable c] (a b : BbrState) :
    (if c then a else b).bw_hi = if c then a.bw_hi else b.bw_hi := by split <;> rfl

@[simp] lemma push_state_ite (c : Prop) [Decidable c] (a b : BbrState) :
    (if c then a else b).state = if c then a.state else b.state := by split <;> rfl

@[simp] lemma push_bdp_ite (c : Prop) [Decidable c] (a b : BbrState) :
    (if c then a else b).bdp = if c then a.bdp else b.bdp := by split <;> rfl

@[simp] lemma push_inflight_hi_ite (c : Prop) [Decidable c] (a b : BbrState) :
    (if c then a else b).inflight_hi = if c then a.inflight_hi else b.inflight_hi := by split <;> rfl

@[simp] lemma push_bw_probe_samples_ite (c : Prop) [Decidable c] (a b : BbrState) :
    (if c then a else b).bw_probe_samples = if c then a.bw_probe_samples else b.bw_probe_samples := by split <;> rfl

@[simp] lemma push_filled_pipe_ite (c : Prop) [Decidable c] (a b : BbrState) :
    (if c then a else b).filled_pipe = if c then a.filled_pipe else b.filled_pipe := by split <;> rfl

@[simp] lemma push_min_rtt_ite (c : Prop) [Decidable c] (a b : BbrState) :
    (if c then a else b).min_rtt = if c then a.min_rtt else b.min_rtt := by split <;> rfl

@[simp] lemma push_bdp_seed_ite (c : Prop) [Decidable c] (a b : BbrState) :
    (if c then a else b).bdp_seed = if c then a.bdp_seed else b.bdp_seed := by split <;> rfl

@[simp] lemma push_send_quantum_ite (c : Prop) [Decidable c] (a b : BbrState) :
    (if c then a else b).send_quantum = if c then a.send_quantum else b.send_quantum := by split <;> rfl

@[simp] lemma push_max_inflight_ite (c : Prop) [Decidable c] (a b : BbrState) :
    (if c then a else b).max_inflight = if c then a.max_inflight else b.max_inflight := by split <;> rfl

@[simp] lemma push_prior_cwnd_ite (c : Prop) [Decidable c] (a b : BbrState) :
    (if c then a else b).prior_cwnd = if c then a.prior_cwnd else b.prior_cwnd := by split <;> rfl

@[simp] lemma push_round_start_ite (c : Prop) [Decidable c] (a b : BbrState) :
    (if c then a else b).round_start = if c then a.round_start else b.round_start := by split <;> rfl

@[simp] lemma push_probe_rtt_done_stamp_ite (c : Prop) [Decidable c] (a b : BbrState) :
    (if c then a else b).probe_rtt_done_stamp = if c then a.probe_rtt_done_stamp else b.probe_rtt_done_stamp := by split <;> rfl

@[simp] lemma push_probe_rtt_round_done_ite (c : Prop) [Decidable c] (a b : BbrState) :
    (if c then a else b).probe_rtt_round_done = if c then a.probe_rtt_round_done else b.probe_rtt_round_done := by split <;> rfl

@[simp] lemma push_idle_restart_ite (c : Prop) [Decidable c] (a b : BbrState) :
    (if c then a else b).idle_restart = if c then a.idle_restart else b.idle_restart := by split <;> rfl

@[simp] lemma push_path_cwin_ite (c : Prop) [Decidable c] (a b : PathState) :
    (if c then a else b).cwin = if c then a.cwin else b.cwin := by split <;> rfl

@[simp] lemma push_path_send_mtu_ite (c : Prop) [Decidable c] (a b : PathState) :
    (if c then a else b).send_mtu = if c then a.send_mtu else b.send_mtu := by split <;> rfl

@[simp] lemma push_path_peak_bandwidth_estimate_ite (c : Prop) [Decidable c] (a b : PathState) :
    (if c then a else b).peak_bandwidth_estimate = if c then a.peak_bandwidth_estimate else b.peak_bandwidth_estimate := by split <;> rfl

@[simp] lemma push_path_delivered_ite (c : Prop) [Decidable c] (a b : PathState) :
    (if c then a else b).delivered = if c then a.delivered else b.delivered := by split <;> rfl

@[simp] lemma push_path_bytes_in_transit_ite (c : Prop) [Decidable c] (a b : PathState) :
    (if c then a else b).bytes_in_transit = if c then a.bytes_in_transit else b.bytes_in_transit := by split <;> rfl

@[simp] lemma push_path_is_cc_data_updated_ite (c : Prop) [Decidable c] (a b : PathState) :
    (if c then a else b).is_cc_data_updated = if c then a.is_cc_data_updated else b.is_cc_data_updated := by split <;> rfl

/- Preservation of the bandwidth-model fields (bw, max_bw, bw_lo, bw_hi)
by the output-derivation stage, which runs after BBRBoundBWForModel. -/

@[simp] lemma bwq_BBRUpdateOffloadBudget (s : BbrState) :
    (BBRUpdateOffloadBudget s).bw = s.bw ∧ (BBRUpdateOffloadBudget s).max_bw = s.max_bw ∧
    (BBRUpdateOffloadBudget s).bw_lo = s.bw_lo ∧ (BBRUpdateOffloadBudget s).bw_hi = s.bw_hi := by
  simp [BBRUpdateOffloadBudget]

@[simp] lemma bwq_BBRBDPMultipleWithBw (s : BbrState) (p : PathState) (g : Dbl) (bw : Nat) :
    ((BBRBDPMultipleWithBw s p g bw).1).bw = s.bw ∧ ((BBRBDPMultipleWithBw s p g bw).1).max_bw = s.max_bw ∧
    ((BBRBDPMultipleWithBw s p g bw).1).bw_lo = s.bw_lo ∧ ((BBRBDPMultipleWithBw s p g bw).1).bw_hi = s.bw_hi := by
  simp [BBRBDPMultipleWithBw]

@[simp] lemma bwq_BBRBDPMultiple (s : BbrState) (p : PathState) (g : Dbl) :
    ((BBRBDPMultiple s p g).1).bw = s.bw ∧ ((BBRBDPMultiple s p g).1).max_bw = s.max_bw ∧
    ((BBRBDPMultiple s p g).1).bw_lo = s.bw_lo ∧ ((BBRBDPMultiple s p g).1).bw_hi = s.bw_hi := by
  simp [BBRBDPMultiple]

@[simp] lemma bwq_BBRQuantizationBudget (s : BbrState) (p : PathState) (n : Nat) :
    ((BBRQuantizationBudget s p n).1).bw = s.bw ∧ ((BBRQuantizationBudget s p n).1).max_bw = s.max_bw ∧
    ((BBRQuantizationBudget s p n).1).bw_lo = s.bw_lo ∧ ((BBRQuantizationBudget s p n).1).bw_hi = s.bw_hi := by
  simp [BBRQuantizationBudget]

@[simp] lemma bwq_BBRProbeRTTCwnd (s : BbrState) (p : PathState) :
    ((BBRProbeRTTCwnd s p).1).bw = s.bw ∧ ((BBRProbeRTTCwnd s p).1).max_bw = s.max_bw ∧
    ((BBRProbeRTTCwnd s p).1).bw_lo = s.bw_lo ∧ ((BBRProbeRTTCwnd s p).1).bw_hi = s.bw_hi := by
  simp [BBRProbeRTTCwnd]

@[simp] lemma bwq_BBRBoundCwndForProbeRTT (s : BbrState) (p : PathState) :
    ((BBRBoundCwndForProbeRTT s p).1).bw = s.bw ∧ ((BBRBoundCwndForProbeRTT s p).1).max_bw = s.max_bw ∧
    ((BBRBoundCwndForProbeRTT s p).1).bw_lo = s.bw_lo ∧ ((BBRBoundCwndForProbeRTT s p).1).bw_hi = s.bw_hi := by
  simp [BBRBoundCwndForProbeRTT]

@[simp] lemma bwq_BBRUpdateMaxInflight (s : BbrState) (p : PathState) :
    (BBRUpdateMaxInflight s p).bw = s.bw ∧ (BBRUpdateMaxInflight s p).max_bw = s.max_bw ∧
    (BBRUpdateMaxInflight s p).bw_lo = s.bw_lo ∧ (BBRUpdateMaxInflight s p).bw_hi = s.bw_hi := by
  simp [BBRUpdateMaxInflight]

@[simp] lemma bwq_BBRSetPacingRateWithGain (s : BbrState) (g : Dbl) :
    (BBRSetPacingRateWithGain s g).bw = s.bw ∧ (BBRSetPacingRateWithGain s g).max_bw = s.max_bw ∧
    (BBRSetPacingRateWithGain s g).bw_lo = s.bw_lo ∧ (BBRSetPacingRateWithGain s g).bw_hi = s.bw_hi := by
  simp [BBRSetPacingRateWithGain]

@[simp] lemma bwq_BBRSetPacingRate (s : BbrState) :
    (BBRSetPacingRate s).bw = s.bw ∧ (BBRSetPacingRate s).max_bw = s.max_bw ∧
    (BBRSetPacingRate s).bw_lo = s.bw_lo ∧ (BBRSetPacingRate s).bw_hi = s.bw_hi := by
  simp [BBRSetPacingRate]

@[simp] lemma bwq_BBRSetSendQuantum (s : BbrState) (p : PathState) :
    (BBRSetSendQuantum s p).bw = s.bw ∧ (BBRSetSendQuantum s p).max_bw = s.max_bw ∧
    (BBRSetSendQuantum s p).bw_lo = s.bw_lo ∧ (BBRSetSendQuantum s p).bw_hi = s.bw_hi := by
  simp [BBRSetSendQuantum]

@[simp] lemma bwq_BBRSetCwnd (s : BbrState) (p : PathState) (rs : Rs) :
    ((BBRSetCwnd s p rs).1).bw = s.bw ∧ ((BBRSetCwnd s p rs).1).max_bw = s.max_bw ∧
    ((BBRSetCwnd s p rs).1).bw_lo = s.bw_lo ∧ ((BBRSetCwnd s p rs).1).bw_hi = s.bw_hi := by
  simp [BBRSetCwnd]

@[simp] lemma bwq_BBRUpdateControlParameters (s : BbrState) (p : PathState) (rs : Rs) :
    ((BBRUpdateControlParameters s p rs).1).bw = s.bw ∧ ((BBRUpdateControlParameters s p rs).1).max_bw = s.max_bw ∧
    ((BBRUpdateControlParameters s p rs).1).bw_lo = s.bw_lo ∧ ((BBRUpdateControlParameters s p rs).1).bw_hi = s.bw_hi := by
  simp [BBRUpdateControlParameters]

@[simp] lemma bwq_BBRUpdateStartupLongRtt (s : BbrState) (p : PathState) (rs : Rs) (t : Nat) :
    ((BBRUpdateStartupLongRtt s p rs t).1).bw = s.bw ∧ ((BBRUpdateStartupLongRtt s p rs t).1).max_bw = s.max_bw ∧
    ((BBRUpdateStartupLongRtt s p rs t).1).bw_lo = s.bw_lo ∧ ((BBRUpdateStartupLongRtt s p rs t).1).bw_hi = s.bw_hi := by
  simp [BBRUpdateStartupLongRtt]

/- The shape of the model update: it always ends with BBRBoundBWForModel. -/

lemma model_update_shape (s : BbrState) (p : PathState) (rs : Rs) (t : Nat) :
    ∃ u pOut, BBRUpdateModelAndState s p rs t = (BBRBoundBWForModel u, pOut) := by
  unfold BBRUpdateModelAndState
  exact ⟨_, _, rfl⟩

@[simp] lemma bound_bw_fields (u : BbrState) :
    (BBRBoundBWForModel u).max_bw = u.max_bw ∧
    (BBRBoundBWForModel u).bw_lo = u.bw_lo ∧
    (BBRBoundBWForModel u).bw_hi = u.bw_hi := by
  simp [BBRBoundBWForModel]

lemma bound_bw_val_zero (u : BbrState) (h : u.bw_hi = 0) :
    (BBRBoundBWForModel u).bw = min u.max_bw u.bw_lo := by
  simp [BBRBoundBWForModel, h]
  split <;> omega

lemma bound_bw_val_pos (u : BbrState) (h : u.bw_hi ≠ 0) :
    (BBRBoundBWForModel u).bw = min (min u.max_bw u.bw_lo) u.bw_hi := by
  simp [BBRBoundBWForModel, h]
  split <;> split <;> omega

lemma on_ack_bound (s : BbrState) (p : PathState) (rs : Rs) (t : Nat) :
    ((BBRUpdateOnACK s p rs t).1.bw_hi = 0 →
      (BBRUpdateOnACK s p rs t).1.bw =
        min (BBRUpdateOnACK s p rs t).1.max_bw
          (BBRUpdateOnACK s p rs t).1.bw_lo) ∧
    ((BBRUpdateOnACK s p rs t).1.bw_hi ≠ 0 →
      (BBRUpdateOnACK s p rs t).1.bw =
        min (min (BBRUpdateOnACK s p rs t).1.max_bw
            (BBRUpdateOnACK s p rs t).1.bw_lo)
          (BBRUpdateOnACK s p rs t).1.bw_hi) := by
  obtain ⟨u, pOut, heq⟩ := model_update_shape s p rs t
  unfold BBRUpdateOnACK
  rw [heq]
  by_cases hlr : (BBRBoundBWForModel u).state = BbrAlgState.startup_long_rtt
  · simp only [hlr, if_true]
    simp only [bwq_BBRUpdateStartupLongRtt, bound_bw_fields]
    exact ⟨fun h => bound_bw_val_zero u h, fun h => bound_bw_val_pos u h⟩
  · simp only [hlr, if_false]
    simp only [bwq_BBRUpdateControlParameters, bound_bw_fields]
    exact ⟨fun h => bound_bw_val_zero u h, fun h => bound_bw_val_pos u h⟩

/-- Follows the spec's words (claim C1): bw = min(max_bw, bw_hi, bw_lo)
where the bw_hi term is applied only when bw_hi is set, i.e. not UINT_MAX,
and the bw_lo term only when bw_lo is set (not UINT_MAX). -/
def spec_bound_bw (max_bw bw_lo bw_hi : Nat) : Nat :=
  let b1 := if bw_hi ≠ UINT64_MAX then min max_bw bw_hi else max_bw
  if bw_lo ≠ UINT64_MAX then min b1 bw_lo else b1

/-- The controller state right after initialisation at time 0 on the base
path (used by the C1 fixtures). -/
def c1_state : BbrState := BBROnInit basePath 0

/-- The path as refreshed by the transport for the first acknowledgement. -/
def c1_path : PathState := applyInputs basePath baseInputs

/-- The dispatcher result of that first acknowledgement. -/
def c1_res : Option BbrState × PathState :=
  picoquic_bbr_notify (some c1_state) c1_path .acknowledgement baseAck 10000

/-- Claim C1 (amended): after every acknowledgement processed with a
non-null controller state, bw = min(max_bw, bw_lo, bw_hi) where the bw_hi
term is applied exactly when bw_hi is not zero - zero, the initial value,
is the code's unset sentinel for bw_hi (bbr.c line 947), not UINT_MAX as
the claim says.  The bw_lo bound is applied unconditionally; since the
unset value of bw_lo is UINT64_MAX, taking the minimum with it is the same
as skipping an unset bw_lo. -/
theorem claim_C1_bound_bw_amended (s : BbrState) (p : PathState)
    (a : AckState) (ct : Nat) (s' : BbrState) (p' : PathState)
    (h : picoquic_bbr_notify (some s) p .acknowledgement a ct =
      (some s', p')) :
    (s'.bw_hi = 0 → s'.bw = min s'.max_bw s'.bw_lo) ∧
    (s'.bw_hi ≠ 0 →
      s'.bw = min (min s'.max_bw s'.bw_lo) s'.bw_hi) := by
  have h1 : (picoquic_bbr_notify_ack s
      { p with is_cc_data_updated := true } a ct).1 = s' := by
    have hfst := congrArg Prod.fst h
    simp only [picoquic_bbr_notify] at hfst
    exact Option.some.inj hfst
  rw [← h1]
  unfold picoquic_bbr_notify_ack
  exact on_ack_bound s { p with is_cc_data_updated := true }
    (BBRSetRsFromAckState { p with is_cc_data_updated := true } a) ct

/-- Counterexample to claim C1 as stated: after the very first
acknowledgement, bw_hi still holds its initial value 0 (which is not
UINT_MAX, so per the claim's reading the bw_hi term should be applied, and
min(max_bw, bw_lo, 0) = 0), yet the code computes bw = 1000000 because its
unset test for bw_hi is 0, not UINT_MAX. -/
theorem claim_C1_counterexample :
    (c1_res.1.map fun s => (s.bw, s.bw_hi,
      spec_bound_bw s.max_bw s.bw_lo s.bw_hi)) = some (1000000, 0, 0) ∧
    (1000000 : Nat) ≠ 0 := by
  constructor
  · decide
  · decide

/-- Witness for claim C1 on the first-acknowledgement run (bw_hi = 0
branch). -/
theorem claim_C1_witness :
    (c1_res.1.getD bbrZero).bw =
      min (c1_res.1.getD bbrZero).max_bw (c1_res.1.getD bbrZero).bw_lo :=
  (claim_C1_bound_bw_amended c1_state c1_path baseAck 10000
    (c1_res.1.getD bbrZero) c1_res.2 (by decide)).1 (by decide)

/-- Claim C10: btl_bw is zero at initialisation and never written by any
notification handler, so the bottleneck-bandwidth value that
picoquic_bbr_observe reports through cc_param is always 0 on every run,
regardless of the bandwidth measured in max_bw and bw. -/
theorem claim_C10_btl_bw_zero (alloc : Bool) (p0 : PathState) (t0 : Nat)
    (events : List CcEvent) (s : BbrState)
    (h : (bbrRun alloc p0 t0 events).1 = some s) :
    s.btl_bw = 0 ∧ (picoquic_bbr_observe s).2 = 0 := by
  have hw := neverWritten_run alloc p0 t0 events s h
  exact ⟨hw.2, by simp [picoquic_bbr_observe, hw.2]⟩

/-- The first-acknowledgement event used by the run witnesses. -/
def ackEvent : CcEvent :=
  { inputs := baseInputs, notif := .acknowledgement, ack := baseAck,
    current_time := 10000 }

/-- Witness for claim C10 on a one-acknowledgement run. -/
theorem claim_C10_witness :
    (picoquic_bbr_observe
      ((bbrRun true basePath 0 [ackEvent]).1.getD bbrZero)).2 = 0 :=
  (claim_C10_btl_bw_zero true basePath 0 [ackEvent]
    ((bbrRun true basePath 0 [ackEvent]).1.getD bbrZero) (by decide)).2

/- Claim C6: the StartupLongRTT cwnd floor. -/

@[simp] lemma peak_BBRUpdateStartupLongRtt (s : BbrState) (p : PathState)
    (rs : Rs) (t : Nat) :
    (BBRUpdateStartupLongRtt s p rs t).2.peak_bandwidth_estimate =
      p.peak_bandwidth_estimate := by
  simp [BBRUpdateStartupLongRtt, picoquic_hystart_increase]

lemma update_long_rtt_floor (s : BbrState) (p : PathState) (rs : Rs)
    (t : Nat) :
    max (u64mul p.peak_bandwidth_estimate s.min_rtt / 1000000) s.bdp_seed / 2
      ≤ (BBRUpdateStartupLongRtt s p rs t).2.cwin := by
  unfold BBRUpdateStartupLongRtt picoquic_hystart_increase
  dsimp only
  split_ifs <;> simp_all <;> omega

/-- Claim C6 (amended): on an Acknowledgement whose model update leaves the
controller in StartupLongRTT, the congestion window is floored at
max(peak_bandwidth × min_rtt / 1000000, bdp_seed) / 2 - the code halves
the maximum of the full BDP and the seed (bbr.c line 1706), so the seeded
BDP itself is also halved, unlike the claim's floor
max(peak_bandwidth × min_rtt / 2, bdp_seed) which keeps bdp_seed whole. -/
theorem claim_C6_long_rtt_cwin_amended (s : BbrState) (p : PathState)
    (rs : Rs) (ct : Nat)
    (hlr : (BBRUpdateModelAndState s p rs ct).1.state =
      BbrAlgState.startup_long_rtt) :
    max (u64mul (BBRUpdateOnACK s p rs ct).2.peak_bandwidth_estimate
          (BBRUpdateModelAndState s p rs ct).1.min_rtt / 1000000)
        (BBRUpdateModelAndState s p rs ct).1.bdp_seed / 2
      ≤ (BBRUpdateOnACK s p rs ct).2.cwin := by
  unfold BBRUpdateOnACK
  dsimp only
  rw [if_pos hlr, peak_BBRUpdateStartupLongRtt]
  exact update_long_rtt_floor _ _ rs ct

/-- Transport counters for a long-RTT path (300 ms). -/
def c6_inputs : PathInputs :=
  { baseInputs with smoothed_rtt := 300000, rtt_min := 300000,
                    rtt_sample := 300000 }

/-- Per-ACK data matching the long-RTT path. -/
def c6_ack : AckState := { baseAck with rtt_measurement := 300000 }

/-- First acknowledgement: rtt_min of 300 ms makes the controller enter
StartupLongRTT. -/
def c6_e1 : CcEvent :=
  { inputs := c6_inputs, notif := .acknowledgement, ack := c6_ack,
    current_time := 400000 }

/-- A seed_cwin notification carrying a 1 MB seeded BDP. -/
def c6_seed : CcEvent :=
  { inputs := c6_inputs, notif := .seed_cwin,
    ack := { c6_ack with nb_bytes_acknowledged := 1000000 },
    current_time := 500000 }

/-- A further acknowledgement processed inside StartupLongRTT. -/
def c6_e3 : CcEvent :=
  { inputs := { c6_inputs with delivered := 20000 },
    notif := .acknowledgement, ack := c6_ack, current_time := 900000 }

/-- The three-notification run exhibiting the C6 divergence. -/
def c6_run : Option BbrState × PathState :=
  bbrRun true basePath 0 [c6_e1, c6_seed, c6_e3]

/-- The controller-and-path pair right before the last C6 acknowledgement,
with the transport counters already applied. -/
def c6_pre : Option BbrState × PathState :=
  bbrRun true basePath 0 [c6_e1, c6_seed]

set_option maxRecDepth 100000 in
/-- Counterexample to claim C6 as stated: the last acknowledgement of
c6_run is processed in StartupLongRTT with bdp_seed = 1000000, yet the
resulting cwin is 500000 - the code's floor is
max(peak_bdp, bdp_seed) / 2 = 500000, strictly below the claim's floor
max(peak_bdp / 2, bdp_seed) = 1000000. -/
theorem claim_C6_counterexample :
    (c6_run.1.map fun s => (s.state, s.bdp_seed)) =
      some (BbrAlgState.startup_long_rtt, 1000000) ∧
    c6_run.2.cwin = 500000 ∧
    c6_run.2.cwin <
      max (u64mul c6_run.2.peak_bandwidth_estimate
          (c6_run.1.getD bbrZero).min_rtt / 1000000 / 2)
        (c6_run.1.getD bbrZero).bdp_seed := by
  exact ⟨by decide, by decide, by decide⟩

set_option maxRecDepth 100000 in
/-- Witness for claim C6 on the last acknowledgement of the c6 run. -/
theorem claim_C6_witness :
    max (u64mul (BBRUpdateOnACK (c6_pre.1.getD bbrZero)
            (applyInputs c6_pre.2 c6_e3.inputs)
            (BBRSetRsFromAckState (applyInputs c6_pre.2 c6_e3.inputs) c6_ack)
            900000).2.peak_bandwidth_estimate
          (BBRUpdateModelAndState (c6_pre.1.getD bbrZero)
            (applyInputs c6_pre.2 c6_e3.inputs)
            (BBRSetRsFromAckState (applyInputs c6_pre.2 c6_e3.inputs) c6_ack)
            900000).1.min_rtt / 1000000)
        (BBRUpdateModelAndState (c6_pre.1.getD bbrZero)
            (applyInputs c6_pre.2 c6_e3.inputs)
            (BBRSetRsFromAckState (applyInputs c6_pre.2 c6_e3.inputs) c6_ack)
            900000).1.bdp_seed / 2
      ≤ (BBRUpdateOnACK (c6_pre.1.getD bbrZero)
            (applyInputs c6_pre.2 c6_e3.inputs)
            (BBRSetRsFromAckState (applyInputs c6_pre.2 c6_e3.inputs) c6_ack)
            900000).2.cwin :=
  claim_C6_long_rtt_cwin_amended (c6_pre.1.getD bbrZero)
    (applyInputs c6_pre.2 c6_e3.inputs)
    (BBRSetRsFromAckState (applyInputs c6_pre.2 c6_e3.inputs) c6_ack)
    900000 (by decide)

/- Claim C2: the BBRMinPipeCwnd x MSS congestion-window floor. -/

@[simp] lemma mtu_BBRModulateCwndForRecovery (s : BbrState) (p : PathState)
    (rs : Rs) :
    (BBRModulateCwndForRecovery s p rs).send_mtu = p.send_mtu := by
  simp [BBRModulateCwndForRecovery]

@[simp] lemma mtu_BBRBoundCwndForProbeRTT (s : BbrState) (p : PathState) :
    (BBRBoundCwndForProbeRTT s p).2.send_mtu = p.send_mtu := by
  simp [BBRBoundCwndForProbeRTT]

@[simp] lemma mtu_BBRBoundCwndForModel (s : BbrState) (p : PathState) :
    (BBRBoundCwndForModel s p).send_mtu = p.send_mtu := by
  simp [BBRBoundCwndForModel]

@[simp] lemma mtu_BBRSetCwnd (s : BbrState) (p : PathState) (rs : Rs) :
    (BBRSetCwnd s p rs).2.send_mtu = p.send_mtu := by
  simp [BBRSetCwnd]

lemma boundModel_floor (s : BbrState) (p : PathState)
    (h : BBRMinPipeCwnd * p.send_mtu ≤ p.cwin) :
    BBRMinPipeCwnd * p.send_mtu ≤ (BBRBoundCwndForModel s p).cwin := by
  unfold BBRBoundCwndForModel
  dsimp only
  split_ifs <;> simp_all

lemma boundProbeRTT_floor (s : BbrState) (p : PathState)
    (h : BBRMinPipeCwnd * p.send_mtu ≤ p.cwin) :
    BBRMinPipeCwnd * p.send_mtu ≤ (BBRBoundCwndForProbeRTT s p).2.cwin := by
  unfold BBRBoundCwndForProbeRTT BBRProbeRTTCwnd
  dsimp only
  split_ifs <;> simp_all

lemma setCwnd_floor (s : BbrState) (p : PathState) (rs : Rs)
    (hpc : s.packet_conservation = false) :
    BBRMinPipeCwnd * p.send_mtu ≤ (BBRSetCwnd s p rs).2.cwin := by
  have hpc1 : (BBRUpdateMaxInflight s p).packet_conservation = false := by
    rw [(frame_BBRUpdateMaxInflight s p).1, hpc]
  unfold BBRSetCwnd
  dsimp only
  rw [if_pos hpc1]
  have hfloor : BBRMinPipeCwnd *
      (BBRModulateCwndForRecovery (BBRUpdateMaxInflight s p) p rs).send_mtu ≤
      (let q :=
        if (BBRUpdateMaxInflight s p).filled_pipe then
          let c := (BBRModulateCwndForRecovery (BBRUpdateMaxInflight s p) p
            rs).cwin + rs.newly_acked
          { BBRModulateCwndForRecovery (BBRUpdateMaxInflight s p) p rs with
            cwin := if (BBRUpdateMaxInflight s p).max_inflight < c then
              (BBRUpdateMaxInflight s p).max_inflight else c }
        else if (BBRModulateCwndForRecovery (BBRUpdateMaxInflight s p) p
              rs).cwin < (BBRUpdateMaxInflight s p).max_inflight ∨
            (BBRModulateCwndForRecovery (BBRUpdateMaxInflight s p) p
              rs).delivered < PICOQUIC_CWIN_INITIAL then
          { BBRModulateCwndForRecovery (BBRUpdateMaxInflight s p) p rs with
            cwin := (BBRModulateCwndForRecovery (BBRUpdateMaxInflight s p) p
              rs).cwin + rs.newly_acked }
        else BBRModulateCwndForRecovery (BBRUpdateMaxInflight s p) p rs
      if q.cwin < BBRMinPipeCwnd * q.send_mtu then
        { q with cwin := BBRMinPipeCwnd * q.send_mtu }
      else q).cwin := by
    dsimp only
    split_ifs <;> simp_all
  refine le_trans ?_ (boundModel_floor _ _ ?_)
  · simp
  · rw [mtu_BBRBoundCwndForProbeRTT]
    refine le_trans ?_ (boundProbeRTT_floor _ _ ?_)
    · simp
    · exact le_trans (le_of_eq (by simp)) hfloor

/-- Claim C2 (amended, second clause): after an Acknowledgement whose model
update leaves the controller outside StartupLongRTT with packet
conservation off, the congestion window is at least
BBRMinPipeCwnd x send_mtu.  The first clause of the claim - the floor
holds after every notification - is false: the StartupLongRTT path derives
cwin from the HyStart growth and the half-BDP floor only and never applies
the BBRMinPipeCwnd x MSS floor (see the C2 counterexample). -/
theorem claim_C2_cwnd_floor_amended (s : BbrState) (p : PathState) (rs : Rs)
    (ct : Nat)
    (hst : (BBRUpdateModelAndState s p rs ct).1.state ≠
      BbrAlgState.startup_long_rtt)
    (hpc : (BBRUpdateModelAndState s p rs ct).1.packet_conservation =
      false) :
    BBRMinPipeCwnd * (BBRUpdateOnACK s p rs ct).2.send_mtu ≤
      (BBRUpdateOnACK s p rs ct).2.cwin := by
  unfold BBRUpdateOnACK
  dsimp only
  rw [if_neg hst]
  unfold BBRUpdateControlParameters
  dsimp only
  rw [mtu_BBRSetCwnd]
  apply setCwnd_floor
  rw [(frame_BBRSetSendQuantum _ _).1, (frame_BBRSetPacingRate _).1, hpc]

/-- A path with jumbo frames: MSS 16384, initial window 15360 bytes. -/
def c2_path0 : PathState := { basePath with send_mtu := 16384 }

/-- An acknowledgement on the jumbo path with a 300 ms rtt_min, entering
StartupLongRTT. -/
def c2_e1 : CcEvent :=
  { inputs := { c6_inputs with send_mtu := 16384 },
    notif := .acknowledgement, ack := c6_ack, current_time := 400000 }

/-- The one-notification run exhibiting the C2 divergence. -/
def c2_run : Option BbrState × PathState := bbrRun true c2_path0 0 [c2_e1]

set_option maxRecDepth 100000 in
/-- Counterexample to claim C2 as stated: after the acknowledgement that
enters StartupLongRTT on the jumbo-frame path, cwin = 46080 while
BBRMinPipeCwnd x send_mtu = 65536, and packet_conservation is false, so
no recovery override excuses the miss: the StartupLongRTT path has no
BBRMinPipeCwnd floor. -/
theorem claim_C2_counterexample :
    (c2_run.1.map fun s => (s.state, s.packet_conservation)) =
      some (BbrAlgState.startup_long_rtt, false) ∧
    c2_run.2.cwin = 46080 ∧ c2_run.2.send_mtu = 16384 ∧
    c2_run.2.cwin < BBRMinPipeCwnd * c2_run.2.send_mtu :=
  ⟨by decide, by decide, by decide, by decide⟩

set_option maxRecDepth 100000 in
/-- Witness for claim C2 on the first acknowledgement of the base run
(the controller stays in Startup, packet conservation off). -/
theorem claim_C2_witness :
    BBRMinPipeCwnd * (BBRUpdateOnACK c1_state c1_path
        (BBRSetRsFromAckState c1_path baseAck) 10000).2.send_mtu ≤
      (BBRUpdateOnACK c1_state c1_path
        (BBRSetRsFromAckState c1_path baseAck) 10000).2.cwin :=
  claim_C2_cwnd_floor_amended c1_state c1_path
    (BBRSetRsFromAckState c1_path baseAck) 10000 (by decide) (by decide)

/- Claim C5: reaction to a too-high-loss sample in ProbeBW_Up. -/

@[simp] lemma c5p_BBRUpdateLatestDeliverySignals (s : BbrState)
    (p : PathState) (rs : Rs) :
    (BBRUpdateLatestDeliverySignals s p rs).state = s.state ∧
    (BBRUpdateLatestDeliverySignals s p rs).filled_pipe = s.filled_pipe ∧
    (BBRUpdateLatestDeliverySignals s p rs).bw_probe_samples =
      s.bw_probe_samples ∧
    (BBRUpdateLatestDeliverySignals s p rs).bdp = s.bdp ∧
    (BBRUpdateLatestDeliverySignals s p rs).inflight_hi = s.inflight_hi := by
  simp [BBRUpdateLatestDeliverySignals]

@[simp] lemma c5p_BBRUpdateCongestionSignals (s : BbrState) (p : PathState)
    (rs : Rs) :
    (BBRUpdateCongestionSignals s p rs).state = s.state ∧
    (BBRUpdateCongestionSignals s p rs).filled_pipe = s.filled_pipe ∧
    (BBRUpdateCongestionSignals s p rs).bw_probe_samples =
      s.bw_probe_samples ∧
    (BBRUpdateCongestionSignals s p rs).bdp = s.bdp ∧
    (BBRUpdateCongestionSignals s p rs).inflight_hi = s.inflight_hi := by
  simp [BBRUpdateCongestionSignals, BBRUpdateMaxBw, BBRUpdateRound,
    BBRStartRound, BBRAdaptLowerBoundsFromCongestion, BBRLossLowerBounds,
    BBRInitLowerBounds]

@[simp] lemma c5p_BBRUpdateACKAggregation (s : BbrState) (p : PathState)
    (rs : Rs) (ct : Nat) :
    (BBRUpdateACKAggregation s p rs ct).state = s.state ∧
    (BBRUpdateACKAggregation s p rs ct).filled_pipe = s.filled_pipe ∧
    (BBRUpdateACKAggregation s p rs ct).bw_probe_samples =
      s.bw_probe_samples ∧
    (BBRUpdateACKAggregation s p rs ct).bdp = s.bdp ∧
    (BBRUpdateACKAggregation s p rs ct).inflight_hi = s.inflight_hi := by
  simp [BBRUpdateACKAggregation]

lemma c5p_CheckStartupLongRtt (s : BbrState) (p : PathState) (rs : Rs)
    (ct : Nat) (h : s.state = BbrAlgState.probe_bw_up) :
    BBRCheckStartupLongRtt s p rs ct = (s, p) := by
  simp [BBRCheckStartupLongRtt, h]

lemma c5p_CheckStartupDone (s : BbrState) (p : PathState) (rs : Rs)
    (ct : Nat) (h1 : s.state = BbrAlgState.probe_bw_up)
    (h2 : s.filled_pipe = true) :
    (BBRCheckStartupDone s p rs ct).2 = p ∧
    (BBRCheckStartupDone s p rs ct).1.state = s.state ∧
    (BBRCheckStartupDone s p rs ct).1.filled_pipe = true ∧
    (BBRCheckStartupDone s p rs ct).1.bw_probe_samples =
      s.bw_probe_samples ∧
    (BBRCheckStartupDone s p rs ct).1.bdp = s.bdp ∧
    (BBRCheckStartupDone s p rs ct).1.inflight_hi = s.inflight_hi := by
  simp [BBRCheckStartupDone, BBRCheckStartupFullBandwidth,
    BBRCheckStartupHighLoss, BBRCheckStartupHighRTT, h1, h2]

lemma c5p_CheckDrain (s : BbrState) (p : PathState) (ct : Nat)
    (h : s.state = BbrAlgState.probe_bw_up) :
    BBRCheckDrain s p ct = s := by
  simp [BBRCheckDrain, h]

lemma c5_AdaptUpperBounds (s : BbrState) (p : PathState) (rs : Rs)
    (ct : Nat) (h1 : s.state = BbrAlgState.probe_bw_up)
    (h3 : 0 < s.bw_probe_samples) (h4 : IsInflightTooHigh p rs = true)
    (h5 : rs.is_app_limited = false) :
    (BBRAdaptUpperBounds s p rs ct).state = BbrAlgState.probe_bw_down ∧
    (BBRAdaptUpperBounds s p rs ct).bw_probe_samples = 0 ∧
    (BBRAdaptUpperBounds s p rs ct).inflight_hi =
      max rs.tx_in_flight
        (dblToU64 (Dbl.ofNat (BBRTargetInflight s p) * BBRBeta)) := by
  simp [BBRAdaptUpperBounds, CheckInflightTooHigh, BBRHandleInflightTooHigh,
    BBRStartProbeBW_DOWN, BBRResetCongestionSignals, BBRPickProbeWait,
    BBRRandomIntBetween, BBRStartRound, BBRAdvanceMaxBwFilter,
    BBRTargetInflight, h1, h3, h4, h5]
  split_ifs <;> omega

lemma ttpb_cases (s : BbrState) (p : PathState) (ct : Nat) :
    BBRCheckTimeToProbeBW s p ct = (BBRStartProbeBW_REFILL s p, true) ∨
    BBRCheckTimeToProbeBW s p ct = (s, false) := by
  unfold BBRCheckTimeToProbeBW
  split_ifs
  · exact Or.inl rfl
  · exact Or.inr rfl

lemma c5p_StartRefill (s : BbrState) (p : PathState) :
    (BBRStartProbeBW_REFILL s p).state = BbrAlgState.probe_bw_refill ∧
    (BBRStartProbeBW_REFILL s p).bw_probe_samples = s.bw_probe_samples ∧
    (BBRStartProbeBW_REFILL s p).inflight_hi = s.inflight_hi := by
  simp [BBRStartProbeBW_REFILL, BBRResetLowerBounds, BBRStartRound]

lemma c5p_StartCruise (s : BbrState) :
    (BBRStartProbeBW_CRUISE s).state = BbrAlgState.probe_bw_cruise ∧
    (BBRStartProbeBW_CRUISE s).bw_probe_samples = s.bw_probe_samples ∧
    (BBRStartProbeBW_CRUISE s).inflight_hi = s.inflight_hi := by
  simp [BBRStartProbeBW_CRUISE]

lemma c5p_CheckTimeToCruise (s : BbrState) (p : PathState) :
    (BBRCheckTimeToCruise s p).1.state = s.state ∧
    (BBRCheckTimeToCruise s p).1.bw_probe_samples = s.bw_probe_samples ∧
    (BBRCheckTimeToCruise s p).1.inflight_hi = s.inflight_hi := by
  simp [BBRCheckTimeToCruise, BBRInflightWithBw, BBRBDPMultipleWithBw,
    BBRQuantizationBudget, BBRUpdateOffloadBudget]

lemma c5_UpdateProbeBWCyclePhase (s : BbrState) (p : PathState) (rs : Rs)
    (ct : Nat) (h1 : s.state = BbrAlgState.probe_bw_up)
    (h2 : s.filled_pipe = true) (h3 : 0 < s.bw_probe_samples)
    (h4 : IsInflightTooHigh p rs = true) (h5 : rs.is_app_limited = false) :
    (BBRUpdateProbeBWCyclePhase s p rs ct).bw_probe_samples = 0 ∧
    (BBRUpdateProbeBWCyclePhase s p rs ct).inflight_hi =
      max rs.tx_in_flight
        (dblToU64 (Dbl.ofNat (BBRTargetInflight s p) * BBRBeta)) ∧
    ((BBRUpdateProbeBWCyclePhase s p rs ct).state =
        BbrAlgState.probe_bw_down ∨
     (BBRUpdateProbeBWCyclePhase s p rs ct).state =
        BbrAlgState.probe_bw_cruise ∨
     (BBRUpdateProbeBWCyclePhase s p rs ct).state =
        BbrAlgState.probe_bw_refill) := by
  obtain ⟨ha1, ha2, ha3⟩ := c5_AdaptUpperBounds s p rs ct h1 h3 h4 h5
  unfold BBRUpdateProbeBWCyclePhase
  rw [if_neg (by simp [h2])]
  dsimp only
  rw [ha1]
  dsimp only
  rcases ttpb_cases (BBRAdaptUpperBounds s p rs ct) p ct with he | he <;>
    rw [he]
  · simp [c5p_StartRefill, ha2, ha3]
  · by_cases hc : (BBRCheckTimeToCruise (BBRAdaptUpperBounds s p rs ct) p).2
    · simp [hc, c5p_StartCruise,
        c5p_CheckTimeToCruise (BBRAdaptUpperBounds s p rs ct) p, ha2, ha3]
    · simp [hc, c5p_CheckTimeToCruise (BBRAdaptUpperBounds s p rs ct) p,
        ha1, ha2, ha3]

@[simp] lemma c5p_BBRUpdateMinRTT (s : BbrState) (p : PathState) (rs : Rs)
    (ct : Nat) :
    (BBRUpdateMinRTT s p rs ct).state = s.state ∧
    (BBRUpdateMinRTT s p rs ct).bw_probe_samples = s.bw_probe_samples ∧
    (BBRUpdateMinRTT s p rs ct).inflight_hi = s.inflight_hi := by
  simp [BBRUpdateMinRTT, BBRAdaptMinRttMargin]

lemma c5_CheckProbeRTT (s : BbrState) (p : PathState) (rs : Rs) (ct : Nat)
    (hne : s.state ≠ BbrAlgState.probe_rtt) :
    (BBRCheckProbeRTT s p rs ct).1.bw_probe_samples = s.bw_probe_samples ∧
    (BBRCheckProbeRTT s p rs ct).1.inflight_hi = s.inflight_hi ∧
    ((BBRCheckProbeRTT s p rs ct).1.state = s.state ∨
     (BBRCheckProbeRTT s p rs ct).1.state = BbrAlgState.probe_rtt) := by
  unfold BBRCheckProbeRTT
  dsimp only
  by_cases hcond : s.state ≠ BbrAlgState.probe_rtt ∧
      s.probe_rtt_expired ∧ s.idle_restart = false
  · rw [if_pos hcond]
    simp [BBREnterProbeRTT, BBRSaveCwnd, BBRStartRound, BBRHandleProbeRTT,
      BBRProbeRTTCwnd, BBRBDPMultiple, BBRBDPMultipleWithBw]
  · rw [if_neg hcond, if_neg hne]
    simp

@[simp] lemma c5p_BBRAdvanceLatestDeliverySignals (s : BbrState) (rs : Rs) :
    (BBRAdvanceLatestDeliverySignals s rs).state = s.state ∧
    (BBRAdvanceLatestDeliverySignals s rs).bw_probe_samples =
      s.bw_probe_samples ∧
    (BBRAdvanceLatestDeliverySignals s rs).inflight_hi = s.inflight_hi := by
  simp [BBRAdvanceLatestDeliverySignals]

@[simp] lemma c5p_BBRBoundBWForModel (s : BbrState) :
    (BBRBoundBWForModel s).state = s.state ∧
    (BBRBoundBWForModel s).bw_probe_samples = s.bw_probe_samples ∧
    (BBRBoundBWForModel s).inflight_hi = s.inflight_hi := by
  simp [BBRBoundBWForModel]

lemma c5_model (s : BbrState) (p : PathState) (rs : Rs) (ct : Nat)
    (h1 : s.state = BbrAlgState.probe_bw_up) (h2 : s.filled_pipe = true)
    (h3 : 0 < s.bw_probe_samples) (h4 : IsInflightTooHigh p rs = true)
    (h5 : rs.is_app_limited = false) :
    (BBRUpdateModelAndState s p rs ct).1.bw_probe_samples = 0 ∧
    (BBRUpdateModelAndState s p rs ct).1.inflight_hi =
      max rs.tx_in_flight
        (dblToU64 (Dbl.ofNat (BBRTargetInflight s p) * BBRBeta)) ∧
    ((BBRUpdateModelAndState s p rs ct).1.state =
        BbrAlgState.probe_bw_down ∨
     (BBRUpdateModelAndState s p rs ct).1.state =
        BbrAlgState.probe_bw_cruise ∨
     (BBRUpdateModelAndState s p rs ct).1.state =
        BbrAlgState.probe_bw_refill ∨
     (BBRUpdateModelAndState s p rs ct).1.state =
        BbrAlgState.probe_rtt) := by
  unfold BBRUpdateModelAndState
  dsimp only
  rw [c5p_CheckStartupLongRtt _ p rs ct (by simp [h1])]
  dsimp only
  obtain ⟨hd_path, hd_state, hd_fp, hd_samp, hd_bdp, hd_inf⟩ :=
    c5p_CheckStartupDone
      (BBRUpdateACKAggregation
        (BBRUpdateCongestionSignals
          (BBRUpdateLatestDeliverySignals s p rs) p rs) p rs ct)
      p rs ct (by simp [h1]) (by simp [h2])
  rw [hd_path]
  rw [c5p_CheckDrain _ p ct (by rw [hd_state]; simp [h1])]
  obtain ⟨hc_samp, hc_inf, hc_state⟩ :=
    c5_UpdateProbeBWCyclePhase
      (BBRCheckStartupDone
        (BBRUpdateACKAggregation
          (BBRUpdateCongestionSignals
            (BBRUpdateLatestDeliverySignals s p rs) p rs) p rs ct)
        p rs ct).1
      p rs ct (by rw [hd_state]; simp [h1]) hd_fp
      (by rw [hd_samp]; simp [h3]) h4 h5
  have htarget :
      BBRTargetInflight
        (BBRCheckStartupDone
          (BBRUpdateACKAggregation
            (BBRUpdateCongestionSignals
              (BBRUpdateLatestDeliverySignals s p rs) p rs) p rs ct)
          p rs ct).1 p = BBRTargetInflight s p := by
    simp [BBRTargetInflight, hd_bdp]
  rw [htarget] at hc_inf
  obtain ⟨hr_samp, hr_inf, hr_state⟩ :=
    c5_CheckProbeRTT
      (BBRUpdateMinRTT
        (BBRUpdateProbeBWCyclePhase
          (BBRCheckStartupDone
            (BBRUpdateACKAggregation
              (BBRUpdateCongestionSignals
                (BBRUpdateLatestDeliverySignals s p rs) p rs) p rs ct)
            p rs ct).1
          p rs ct)
        p rs ct)
      p rs ct
      (by rcases hc_state with h | h | h <;> simp [h])
  refine ⟨?_, ?_, ?_⟩
  · simp only [c5p_BBRBoundBWForModel, c5p_BBRAdvanceLatestDeliverySignals]
    rw [hr_samp]
    simp only [c5p_BBRUpdateMinRTT]
    exact hc_samp
  · simp only [c5p_BBRBoundBWForModel, c5p_BBRAdvanceLatestDeliverySignals]
    rw [hr_inf]
    simp only [c5p_BBRUpdateMinRTT]
    exact hc_inf
  · simp only [c5p_BBRBoundBWForModel, c5p_BBRAdvanceLatestDeliverySignals]
    rcases hr_state with h | h
    · rw [h]
      simp only [c5p_BBRUpdateMinRTT]
      rcases hc_state with h' | h' | h' <;> simp [h']
    · simp [h]

lemma c5p_BBRUpdateControlParameters (s : BbrState) (p : PathState)
    (rs : Rs) :
    (BBRUpdateControlParameters s p rs).1.state = s.state ∧
    (BBRUpdateControlParameters s p rs).1.bw_probe_samples =
      s.bw_probe_samples ∧
    (BBRUpdateControlParameters s p rs).1.inflight_hi = s.inflight_hi := by
  simp [BBRUpdateControlParameters, BBRSetPacingRate,
    BBRSetPacingRateWithGain, BBRSetSendQuantum, BBRSetCwnd,
    BBRUpdateMaxInflight, BBRBDPMultiple, BBRBDPMultipleWithBw,
    BBRQuantizationBudget, BBRUpdateOffloadBudget,
    BBRBoundCwndForProbeRTT, BBRProbeRTTCwnd]

/-- Claim C5 (amended): an ACK sample processed in ProbeBW_Up with
bw_probe_samples > 0 whose lost volume exceeds BBRLossThresh (2 percent) of
tx_in_flight clears bw_probe_samples and - when the sample is not app
limited - sets inflight_hi = max(tx_in_flight, BBRBeta x min(bdp, cwin)),
and leaves ProbeBW_Up through BBRStartProbeBW_DOWN; but the SAME ack
continues through the state machine, so the final phase is not always
ProbeBW_Down as the claim says: the down phase entered mid-update can
advance to Cruise or Refill, and BBRCheckProbeRTT can move to ProbeRTT,
leaving the controller in one of Down, Cruise, Refill or ProbeRTT. -/
theorem claim_C5_loss_in_probe_up_amended (s : BbrState) (p : PathState)
    (rs : Rs) (ct : Nat)
    (h1 : s.state = BbrAlgState.probe_bw_up) (h2 : s.filled_pipe = true)
    (h3 : 0 < s.bw_probe_samples) (h4 : IsInflightTooHigh p rs = true)
    (h5 : rs.is_app_limited = false) :
    (BBRUpdateOnACK s p rs ct).1.bw_probe_samples = 0 ∧
    (BBRUpdateOnACK s p rs ct).1.inflight_hi =
      max rs.tx_in_flight
        (dblToU64 (Dbl.ofNat (BBRTargetInflight s p) * BBRBeta)) ∧
    ((BBRUpdateOnACK s p rs ct).1.state = BbrAlgState.probe_bw_down ∨
     (BBRUpdateOnACK s p rs ct).1.state = BbrAlgState.probe_bw_cruise ∨
     (BBRUpdateOnACK s p rs ct).1.state = BbrAlgState.probe_bw_refill ∨
     (BBRUpdateOnACK s p rs ct).1.state = BbrAlgState.probe_rtt) := by
  obtain ⟨hm1, hm2, hm3⟩ := c5_model s p rs ct h1 h2 h3 h4 h5
  unfold BBRUpdateOnACK
  dsimp only
  rw [if_neg (by rcases hm3 with h | h | h | h <;> simp [h])]
  obtain ⟨hu_state, hu_samp, hu_inf⟩ :=
    c5p_BBRUpdateControlParameters (BBRUpdateModelAndState s p rs ct).1
      (BBRUpdateModelAndState s p rs ct).2 rs
  refine ⟨hu_samp.trans hm1, hu_inf.trans hm2, ?_⟩
  rw [hu_state]
  exact hm3

/-- A controller state probing for bandwidth in ProbeBW_Up (built over the
initialised state). -/
def c5_state : BbrState :=
  { BBROnInit basePath 0 with
    state := BbrAlgState.probe_bw_up
    filled_pipe := true
    bw_probe_samples := 1
    bdp := 100000 }

/-- The path during the ProbeBW_Up probe. -/
def c5_path : PathState :=
  { basePath with
    cwin := 100000
    bytes_in_transit := 0
    delivered := 200000 }

/-- A rate sample with five percent of the in-flight volume lost. -/
def c5_rs : Rs :=
  { delivered := 10000, delivery_rate := 1000000, rtt_sample := 50000,
    newly_acked := 1000, newly_lost := 5000, tx_in_flight := 100000,
    lost := 5000, is_app_limited := false, is_cwnd_limited := false }

/-- The controller state after the too-high-loss ACK of claim C5. -/
def c5_res : BbrState := (BBRUpdateOnACK c5_state c5_path c5_rs 1000000).1

set_option maxRecDepth 100000 in
/-- Counterexample to claim C5 as stated: the losing ACK arrives in
ProbeBW_Up with bw_probe_samples = 1 and lost = 5 percent of tx_in_flight,
and the handler does clear bw_probe_samples and set
inflight_hi = max(100000, 0.7 x min(bdp, cwin)) = 100000 - but the same
ACK carries the state machine past ProbeBW_Down into ProbeBW_Cruise, so
the claimed final phase ProbeBW_Down is wrong. -/
theorem claim_C5_counterexample :
    c5_state.state = BbrAlgState.probe_bw_up ∧
    0 < c5_state.bw_probe_samples ∧
    IsInflightTooHigh c5_path c5_rs = true ∧
    c5_rs.is_app_limited = false ∧
    c5_res.bw_probe_samples = 0 ∧
    c5_res.inflight_hi = 100000 ∧
    c5_res.state = BbrAlgState.probe_bw_cruise ∧
    c5_res.state ≠ BbrAlgState.probe_bw_down :=
  ⟨by decide, by decide, by decide, by decide, by decide, by decide,
   by decide, by decide⟩

set_option maxRecDepth 100000 in
/-- Witness for claim C5 on the concrete losing ACK. -/
theorem claim_C5_witness :
    (BBRUpdateOnACK c5_state c5_path c5_rs 1000000).1.bw_probe_samples =
      0 ∧
    (BBRUpdateOnACK c5_state c5_path c5_rs 1000000).1.inflight_hi =
      max c5_rs.tx_in_flight
        (dblToU64 (Dbl.ofNat (BBRTargetInflight c5_state c5_path) *
          BBRBeta)) ∧
    ((BBRUpdateOnACK c5_state c5_path c5_rs 1000000).1.state =
        BbrAlgState.probe_bw_down ∨
     (BBRUpdateOnACK c5_state c5_path c5_rs 1000000).1.state =
        BbrAlgState.probe_bw_cruise ∨
     (BBRUpdateOnACK c5_state c5_path c5_rs 1000000).1.state =
        BbrAlgState.probe_bw_refill ∨
     (BBRUpdateOnACK c5_state c5_path c5_rs 1000000).1.state =
        BbrAlgState.probe_rtt) :=
  claim_C5_loss_in_probe_up_amended c5_state c5_path c5_rs 1000000
    (by decide) (by decide) (by decide) (by decide) (by decide)
